import Mathlib

/-!
# spark_wiring_cloud.h : the cloud facade `CloudClass`

A shallow embedding of `wiring/inc/spark_wiring_cloud.h`.  The header is a thin
layer over the system engine: every member function forwards to functions that
are declared in other headers (`system_cloud.h`, `spark_wiring_system.h`, ...).
Those collaborators are taken as a parameter (`Engine`) acting on an arbitrary
engine state, and every call that crosses the boundary is recorded in a trace,
so that statements such as "exactly one call" or "no call" can be expressed.
-/

namespace SparkWiringCloud

/-! ## Build configuration -/

/-- The preprocessor symbols and constants the header takes from its includes. -/
structure BuildConfig where
  /-- Set when `SPARK_NO_CLOUD` is defined: cloud support compiled out. -/
  SPARK_NO_CLOUD : Bool
  PLATFORM_ID : Nat
  USER_VAR_KEY_LENGTH : Nat
  USER_FUNC_KEY_LENGTH : Nat
  PUBLISH_EVENT_FLAG_PUBLIC : Nat
  PUBLISH_EVENT_FLAG_PRIVATE : Nat
  PUBLISH_EVENT_FLAG_NO_ACK : Nat
  PUBLISH_EVENT_FLAG_WITH_ACK : Nat
  /-- Value of `sizeof(const char*)` on the target. -/
  sizeof_pointer : Nat
  /-- Value of `sizeof(String)` on the target. -/
  sizeof_String : Nat
deriving DecidableEq, Repr

abbrev Addr := Nat

/-- The result of `system_thread_get_state`, `spark::feature::State`. -/
inductive FeatureState where
  | DISABLED
  | ENABLED
deriving DecidableEq, Repr

inductive System_Mode_TypeDef where
  | DEFAULT
  | AUTOMATIC
  | SEMI_AUTOMATIC
  | MANUAL
  | SAFE_MODE
deriving DecidableEq, Repr

inductive Spark_Subscription_Scope_TypeDef where
  | MY_DEVICES
  | ALL_DEVICES
deriving DecidableEq, Repr

/-- The kind tag handed to `spark_variable`. -/
inductive Spark_Data_TypeDef where
  | CLOUD_VAR_BOOLEAN
  | CLOUD_VAR_INT
  | CLOUD_VAR_STRING
  | CLOUD_VAR_DOUBLE
deriving DecidableEq, Repr

/-- The tag objects `BOOLEAN`, `INT`, `DOUBLE`, `STRING` (one per `CloudVariableType...` class). -/
inductive CloudVariableType where
  | BOOLEAN
  | INT
  | DOUBLE
  | STRING
deriving DecidableEq, Repr

/-- Member `T::value()` of the tag classes. -/
def CloudVariableType.value : CloudVariableType → Spark_Data_TypeDef
  | .BOOLEAN => .CLOUD_VAR_BOOLEAN
  | .INT => .CLOUD_VAR_INT
  | .DOUBLE => .CLOUD_VAR_DOUBLE
  | .STRING => .CLOUD_VAR_STRING

/-- Function pointers that can be stored in `spark_variable_t::update`. -/
inductive UpdateFn where
  | update_string_variable
deriving DecidableEq, Repr

/-- The `extra` record of `spark_variable` (its `size` field is `sizeof(extra)`). -/
structure spark_variable_t where
  update : UpdateFn
deriving DecidableEq, Repr

/-- The trampolines given to `register_function` (`cloud_function_t`). -/
inductive cloud_function_t where
  | call_raw_user_function
  | call_std_user_function
deriving DecidableEq, Repr

/-- The handler pointer given to `spark_subscribe`: a user C callback or the wiring trampoline. -/
inductive EventHandler where
  | user (fn : Addr)
  | call_wiring_event_handler
deriving DecidableEq, Repr

/-- The handle `particle::Future<bool>`: the value the publish eventually resolves to. -/
structure Future (α : Type) where
  result : α
deriving DecidableEq, Repr

/-! ## The engine boundary -/

/-- One call across the engine boundary, with the arguments it carries. -/
inductive EngineCall where
  | spark_cloud_flag_connected
  | spark_cloud_flag_connect
  | spark_cloud_flag_disconnect
  | spark_sync_time_pending
  | system_thread_get_state
  | SystemClass_mode
  | spark_variable (varKey : String) (userVar : Addr) (userVarType : Spark_Data_TypeDef)
      (extra : Option spark_variable_t)
  | register_function (fn : cloud_function_t) (data : Addr) (funcKey : String)
  | publish_event (eventName : String) (eventData : Option String) (ttl : Int) (flags : Nat)
  | spark_subscribe (eventName : String) (handler : EventHandler) (handler_data : Option Addr)
      (scope : Spark_Subscription_Scope_TypeDef) (deviceID : Option String)
deriving DecidableEq, Repr

/-- The external collaborators, over an arbitrary engine state `σ`.  The queries
observe the state; the other operations may change it. -/
structure Engine (σ : Type) where
  spark_cloud_flag_connected : σ → Bool
  spark_cloud_flag_connect : σ → σ
  spark_cloud_flag_disconnect : σ → σ
  spark_sync_time_pending : σ → Bool
  system_thread_get_state : σ → FeatureState
  SystemClass_mode : σ → System_Mode_TypeDef
  spark_variable : String → Addr → Spark_Data_TypeDef → Option spark_variable_t → σ → Bool × σ
  register_function : cloud_function_t → Addr → String → σ → Bool × σ
  publish_event : String → Option String → Int → Nat → σ → Future Bool × σ
  spark_subscribe : String → EventHandler → Option Addr → Spark_Subscription_Scope_TypeDef →
    Option String → σ → Bool × σ
  /-- What the engine does on its own between two polls of a waiting caller. -/
  background : σ → σ

/-- A user callable of shape `int (String)`, running over the user state `υ`. -/
abbrev user_std_function_int_str_t (υ : Type) := String → υ → Int × υ

/-- A user callable of shape `void (const char*, const char*)`. -/
abbrev wiring_event_handler_t (υ : Type) := String → String → υ → υ

/-- Objects created with `new` by the facade. -/
inductive HeapObject (υ : Type) where
  | function_wrapper (func : user_std_function_int_str_t υ)
  | event_handler_wrapper (handler : wiring_event_handler_t υ)

/-- Everything a member function can touch: the engine state, the user state,
the trace of engine calls, and the heap of wrappers (`heapLimit` bounds the
number of objects `new` can deliver). -/
structure World (σ υ : Type) where
  engine : σ
  user : υ
  calls : List EngineCall
  heap : List (HeapObject υ)
  heapLimit : Nat

variable {σ υ : Type}

def World.record (w : World σ υ) (c : EngineCall) : World σ υ :=
  { w with calls := w.calls ++ [c] }

/-- The macro `CLOUD_FN(x,y)`: `y` when cloud support is compiled out, `x` otherwise. -/
def CLOUD_FN {α : Type} (cfg : BuildConfig) (x : World σ υ → α × World σ υ) (y : α)
    (w : World σ υ) : α × World σ υ :=
  if cfg.SPARK_NO_CLOUD then (y, w) else x w

/-! ### Calls into the engine (each one leaves its entry in the trace) -/

def spark_cloud_flag_connected (e : Engine σ) (w : World σ υ) : Bool × World σ υ :=
  (e.spark_cloud_flag_connected w.engine, w.record .spark_cloud_flag_connected)

def spark_sync_time_pending (e : Engine σ) (w : World σ υ) : Bool × World σ υ :=
  (e.spark_sync_time_pending w.engine, w.record .spark_sync_time_pending)

def spark_cloud_flag_connect (e : Engine σ) (w : World σ υ) : World σ υ :=
  { w with engine := e.spark_cloud_flag_connect w.engine,
           calls := w.calls ++ [.spark_cloud_flag_connect] }

def spark_cloud_flag_disconnect (e : Engine σ) (w : World σ υ) : World σ υ :=
  { w with engine := e.spark_cloud_flag_disconnect w.engine,
           calls := w.calls ++ [.spark_cloud_flag_disconnect] }

def system_thread_get_state (e : Engine σ) (w : World σ υ) : FeatureState × World σ υ :=
  (e.system_thread_get_state w.engine, w.record .system_thread_get_state)

def SystemClass_mode (e : Engine σ) (w : World σ υ) : System_Mode_TypeDef × World σ υ :=
  (e.SystemClass_mode w.engine, w.record .SystemClass_mode)

/-! ## Connection and time-sync facade -/

/-- Member `static bool connected(void)`. -/
def CloudClass.connected (e : Engine σ) (w : World σ υ) : Bool × World σ υ :=
  spark_cloud_flag_connected e w

/-- Member `static bool disconnected(void)`. -/
def CloudClass.disconnected (e : Engine σ) (w : World σ υ) : Bool × World σ υ :=
  let r := CloudClass.connected e w
  (!r.1, r.2)

/-- Member `bool syncTimePending(void)`; `&&` evaluates its right operand only when the left is true. -/
def CloudClass.syncTimePending (cfg : BuildConfig) (e : Engine σ) (w : World σ υ) :
    Bool × World σ υ :=
  let c := CloudClass.connected e w
  if c.1 then CLOUD_FN cfg (spark_sync_time_pending e) false c.2 else (false, c.2)

/-- Member `bool syncTimeDone(void)`; `||` evaluates its right operand only when the left is false. -/
def CloudClass.syncTimeDone (cfg : BuildConfig) (e : Engine σ) (w : World σ υ) :
    Bool × World σ υ :=
  let p := CLOUD_FN cfg (spark_sync_time_pending e) false w
  if !p.1 then (true, p.2) else CloudClass.disconnected e p.2

/-- How a call that may wait ends within a given number of polls. -/
inductive Outcome (α : Type) where
  | returned (a : α)
  | waiting (a : α)

def Outcome.world {α : Type} : Outcome α → α
  | .returned a => a
  | .waiting a => a

def Outcome.hasReturned {α : Type} : Outcome α → Bool
  | .returned _ => true
  | .waiting _ => false

/-- Modelled from the spec: the macro `waitUntil` (spark_wiring_system.h) is not
part of the sources.  The spec says the caller is blocked "polling the
connected-predicate ... until the connection transitions to connected", "with no
explicit timeout".  `polls` bounds the number of polls looked at; between two
polls the engine makes its own progress (`Engine.background`). -/
def waitUntil (e : Engine σ) (condition : Engine σ → World σ υ → Bool × World σ υ) :
    Nat → World σ υ → Outcome (World σ υ)
  | 0, w => .waiting w
  | polls + 1, w =>
    let c := condition e w
    if c.1 then .returned c.2
    else waitUntil e condition polls { c.2 with engine := e.background c.2.engine }

/-- Member `static void connect(void)`; `polls` bounds the polls of the wait. -/
def CloudClass.connect (e : Engine σ) (polls : Nat) (w : World σ υ) : Outcome (World σ υ) :=
  let w1 := spark_cloud_flag_connect e w
  let t := system_thread_get_state e w1
  if t.1 = FeatureState.DISABLED then
    let m := SystemClass_mode e t.2
    if m.1 = System_Mode_TypeDef.SEMI_AUTOMATIC then
      -- Particle.connect() should be blocking in SEMI_AUTOMATIC mode when threading is disabled
      waitUntil e CloudClass.connected polls m.2
    else .returned m.2
  else .returned t.2

/-- Whether threading is disabled and the mode is semi-automatic, as `connect`
observes them once it has set the flag. -/
def blockingConfiguration (e : Engine σ) (w : World σ υ) : Prop :=
  e.system_thread_get_state (e.spark_cloud_flag_connect w.engine) = FeatureState.DISABLED ∧
    e.SystemClass_mode (e.spark_cloud_flag_connect w.engine) = System_Mode_TypeDef.SEMI_AUTOMATIC

instance blockingConfiguration.decidable (e : Engine σ) (w : World σ υ) :
    Decidable (blockingConfiguration e w) := by
  unfold blockingConfiguration
  exact inferInstance

/-- The world in which `connect` starts to wait: flag set, threading and mode read. -/
def connectWaitStart (e : Engine σ) (w : World σ υ) : World σ υ :=
  { w with engine := e.spark_cloud_flag_connect w.engine,
           calls := w.calls ++ [.spark_cloud_flag_connect, .system_thread_get_state,
             .SystemClass_mode] }

/-- Member `static void disconnect(void)`. -/
def CloudClass.disconnect (e : Engine σ) (w : World σ υ) : World σ υ :=
  spark_cloud_flag_disconnect e w

/-! ## Publish -/

/-- Enumeration `enum PublishFlag: uint8_t`. -/
inductive PublishFlag where
  | PUBLIC
  | PRIVATE
  | NO_ACK
  | WITH_ACK
deriving DecidableEq, Repr

/-- The enumerator values, `PUBLIC = PUBLISH_EVENT_FLAG_PUBLIC` and so on. -/
def PublishFlag.value (cfg : BuildConfig) : PublishFlag → Nat
  | .PUBLIC => cfg.PUBLISH_EVENT_FLAG_PUBLIC
  | .PRIVATE => cfg.PUBLISH_EVENT_FLAG_PRIVATE
  | .NO_ACK => cfg.PUBLISH_EVENT_FLAG_NO_ACK
  | .WITH_ACK => cfg.PUBLISH_EVENT_FLAG_WITH_ACK

/-- Modelled from the spec: the class `particle::Flags` and the operators made by
`PARTICLE_DEFINE_FLAG_OPERATORS` (spark_wiring_flags.h) are not part of the
sources.  The spec calls the flags "a bitset-like value ... combinable via a
compositional or operation": a flag set is the mask of its members. -/
structure Flags where
  value : Nat
deriving DecidableEq, Repr

/-- Value `Flags<PublishFlag>()`, the empty set. -/
def Flags.none : Flags := ⟨0⟩

/-- The conversion of one `PublishFlag` into a flag set. -/
def Flags.ofFlag (cfg : BuildConfig) (f : PublishFlag) : Flags := ⟨f.value cfg⟩

/-- Operator `flags1 | flags2`. -/
def Flags.or (a b : Flags) : Flags := ⟨a.value ||| b.value⟩

/-- Member `static particle::Future<bool> publish_event(eventName, eventData, ttl, flags)`,
declared in the class and defined by the engine side. -/
def publish_event (e : Engine σ) (eventName : String) (eventData : Option String) (ttl : Int)
    (flags : Flags) (w : World σ υ) : Future Bool × World σ υ :=
  let r := e.publish_event eventName eventData ttl flags.value w.engine
  (r.1, { w with engine := r.2,
                 calls := w.calls ++ [.publish_event eventName eventData ttl flags.value] })

/-- Overload `publish(eventName, eventData, ttl, flags1, flags2)`. -/
def CloudClass.publish_ttl (e : Engine σ) (eventName : String) (eventData : Option String)
    (ttl : Int) (flags1 flags2 : Flags) (w : World σ υ) : Future Bool × World σ υ :=
  publish_event e eventName eventData ttl (flags1.or flags2) w

/-- Overload `publish(eventName, eventData, flags1, flags2)`. -/
def CloudClass.publish_data (e : Engine σ) (eventName : String) (eventData : Option String)
    (flags1 flags2 : Flags) (w : World σ υ) : Future Bool × World σ υ :=
  CloudClass.publish_ttl e eventName eventData 60 flags1 flags2 w

/-- Overload `publish(eventName, flags1, flags2)`. -/
def CloudClass.publish (e : Engine σ) (eventName : String) (flags1 flags2 : Flags)
    (w : World σ υ) : Future Bool × World σ υ :=
  CloudClass.publish_data e eventName Option.none flags1 flags2 w

-- The overload `publish(eventName, eventData, ttl, PublishFlag eventType)` is not embedded:
-- its body names `PublishFlag::flag_t`, which the enumeration of this header does not have.

/-- The call `publish(eventName)`: `flags1 = PUBLIC`, `flags2 = Flags<PublishFlag>()`. -/
def CloudClass.publish_name (cfg : BuildConfig) (e : Engine σ) (eventName : String)
    (w : World σ υ) : Future Bool × World σ υ :=
  CloudClass.publish e eventName (Flags.ofFlag cfg .PUBLIC) Flags.none w

/-- The call `publish(eventName, a)` with one enumerator: the overload
`publish(eventName, flags1, flags2)`, the enumerator converted to a flag set as in
the default argument `flags1 = PUBLIC`, and `flags2` left at its default. -/
def CloudClass.publish_name_flag (cfg : BuildConfig) (e : Engine σ) (eventName : String)
    (a : PublishFlag) (w : World σ υ) : Future Bool × World σ υ :=
  CloudClass.publish e eventName (Flags.ofFlag cfg a) Flags.none w

/-- The call `publish(eventName, a | b)` with two enumerators: the same overload
with the flag set `a | b`, and `flags2` left at its default. -/
def CloudClass.publish_name_pair (cfg : BuildConfig) (e : Engine σ) (eventName : String)
    (a b : PublishFlag) (w : World σ υ) : Future Bool × World σ υ :=
  CloudClass.publish e eventName ((Flags.ofFlag cfg a).or (Flags.ofFlag cfg b)) Flags.none w

/-- The `flags` argument of the calls of `publish_event` in a trace, in order. -/
def publishedFlags : List EngineCall → List Nat
  | [] => []
  | .publish_event _ _ _ flags :: cs => flags :: publishedFlags cs
  | _ :: cs => publishedFlags cs

/-! ## Names and the compile-time length check -/

/-- The name argument of `variable` and `function`, by the static type `T` of the
expression: a string literal `"..."` (type `const char[n+1]`), a character array
`char buf[extent]` filled at run time, a character pointer, or a `String` object. -/
inductive NameArg where
  | literal (chars : String)
  | char_array (extent : Nat) (chars : String)
  | char_pointer (chars : String)
  | String_object (chars : String)
deriving DecidableEq, Repr

/-- The characters the name holds when the call runs. -/
def NameArg.c_str : NameArg → String
  | .literal chars => chars
  | .char_array _ chars => chars
  | .char_pointer chars => chars
  | .String_object chars => chars

/-- Trait `std::is_array<T>::value`. -/
def NameArg.is_array : NameArg → Bool
  | .literal _ => true
  | .char_array _ _ => true
  | .char_pointer _ => false
  | .String_object _ => false

/-- Trait `std::is_same<typename std::remove_extent<T>::type, char>::value`. -/
def NameArg.element_is_char : NameArg → Bool
  | .literal _ => true
  | .char_array _ _ => true
  | .char_pointer _ => false
  | .String_object _ => false

/-- The number of `char` elements of a character sequence (its bytes). -/
def charCount (chars : String) : Nat :=
  chars.utf8ByteSize

/-- Value of `sizeof(name)`: an array has its extent (for a literal its characters
and the terminator), a pointer or a `String` object the size the target gives it. -/
def NameArg.sizeof (cfg : BuildConfig) : NameArg → Nat
  | .literal chars => charCount chars + 1
  | .char_array extent _ => extent
  | .char_pointer _ => cfg.sizeof_pointer
  | .String_object _ => cfg.sizeof_String

/-- Whether the name was built at run time (anything but a literal). -/
def NameArg.builtAtRuntime : NameArg → Bool
  | .literal _ => false
  | _ => true

/-- Member `constexpr static bool IsStringLiteral(const T& param)`. -/
def CloudClass.IsStringLiteral (param : NameArg) : Bool :=
  param.is_array && param.element_is_char

/-- The `static_assert` of `variable`: true when the translation unit is accepted. -/
def CloudClass.variable_static_assert (cfg : BuildConfig) (name : NameArg) : Bool :=
  !CloudClass.IsStringLiteral name ||
    decide (name.sizeof cfg ≤ cfg.USER_VAR_KEY_LENGTH + 1)

/-- The `static_assert` of `function`, present only under `#if PLATFORM_ID!=3`. -/
def CloudClass.function_static_assert (cfg : BuildConfig) (name : NameArg) : Bool :=
  if cfg.PLATFORM_ID ≠ 3 then
    !CloudClass.IsStringLiteral name ||
      decide (name.sizeof cfg ≤ cfg.USER_FUNC_KEY_LENGTH + 1)
  else true

/-! ## Variables -/

/-- The call `spark_variable(varKey, userVar, userVarType, extra)`. -/
def spark_variable (e : Engine σ) (varKey : String) (userVar : Addr)
    (userVarType : Spark_Data_TypeDef) (extra : Option spark_variable_t) (w : World σ υ) :
    Bool × World σ υ :=
  let r := e.spark_variable varKey userVar userVarType extra w.engine
  (r.1, { w with engine := r.2,
                 calls := w.calls ++ [.spark_variable varKey userVar userVarType extra] })

/-- The second argument of `variable(name, var)`, by its static type; `var` is the
address of the caller's storage (for `char_pointer`, of the character data). -/
inductive VariableArg where
  | bool_ref (var : Addr)
  | int_ref (var : Addr)
  | int32_t_ref (var : Addr)
  | uint32_t_ref (var : Addr)
  | double_ref (var : Addr)
  | String_ref (var : Addr)
  | char_pointer (var : Addr)
deriving DecidableEq, Repr

/-- The address of the caller's storage. -/
def VariableArg.address : VariableArg → Addr
  | .bool_ref var => var
  | .int_ref var => var
  | .int32_t_ref var => var
  | .uint32_t_ref var => var
  | .double_ref var => var
  | .String_ref var => var
  | .char_pointer var => var

/-- Overload `template<typename T> _variable(varKey, const typename T::varref userVar, const T&)`. -/
def CloudClass._variable_varref (cfg : BuildConfig) (e : Engine σ) (varKey : String)
    (userVar : Addr) (userVarType : CloudVariableType) (w : World σ υ) : Bool × World σ υ :=
  CLOUD_FN cfg (spark_variable e varKey userVar userVarType.value Option.none) false w

/-- Overload `_variable(varKey, const uint8_t* userVar, const CloudVariableTypeString&)`:
the pointer is cast to `const char*` and handed to the overload above. -/
def CloudClass._variable_uint8_ptr (cfg : BuildConfig) (e : Engine σ) (varKey : String)
    (userVar : Addr) (w : World σ υ) : Bool × World σ υ :=
  CloudClass._variable_varref cfg e varKey userVar .STRING w

/-- Overload `_variable(varKey, const int32_t* userVar, const CloudVariableTypeInt&)`. -/
def CloudClass._variable_int32_ptr (cfg : BuildConfig) (e : Engine σ) (varKey : String)
    (userVar : Addr) (w : World σ υ) : Bool × World σ υ :=
  CLOUD_FN cfg (spark_variable e varKey userVar CloudVariableType.INT.value Option.none) false w

/-- Overload `_variable(varKey, const uint32_t* userVar, const CloudVariableTypeInt&)`. -/
def CloudClass._variable_uint32_ptr (cfg : BuildConfig) (e : Engine σ) (varKey : String)
    (userVar : Addr) (w : World σ υ) : Bool × World σ υ :=
  CLOUD_FN cfg (spark_variable e varKey userVar CloudVariableType.INT.value Option.none) false w

/-- Overload `_variable(const T* varKey, const String* userVar, const CloudVariableTypeString&)`:
the `extra` record carries `update_string_variable`. -/
def CloudClass._variable_String_ptr (cfg : BuildConfig) (e : Engine σ) (varKey : String)
    (userVar : Addr) (w : World σ υ) : Bool × World σ υ :=
  let extra : spark_variable_t := { update := .update_string_variable }
  CLOUD_FN cfg (spark_variable e varKey userVar CloudVariableType.STRING.value (some extra)) false w

/-- The typed overloads `_variable(const char* varKey, const X& var)`: each takes the
address of `var` (the pointer itself for character data) and adds the tag object.
The overload for `int32_t` exists under `PLATFORM_ID != 3`; under `PLATFORM_ID` 3
it would duplicate the one for `int`, which ends in the same call. -/
def CloudClass._variable (cfg : BuildConfig) (e : Engine σ) (varKey : String) :
    VariableArg → World σ υ → Bool × World σ υ
  | .bool_ref var => CloudClass._variable_varref cfg e varKey var .BOOLEAN
  | .int_ref var => CloudClass._variable_varref cfg e varKey var .INT
  | .int32_t_ref var => CloudClass._variable_int32_ptr cfg e varKey var
  | .uint32_t_ref var => CloudClass._variable_uint32_ptr cfg e varKey var
  | .double_ref var => CloudClass._variable_varref cfg e varKey var .DOUBLE
  | .String_ref var => CloudClass._variable_String_ptr cfg e varKey var
  | .char_pointer var => CloudClass._variable_varref cfg e varKey var .STRING

/-- Member `variable(const T &name, const Types& ... args)` with one value argument:
`none` when the `static_assert` rejects the translation unit. -/
def CloudClass.variable (cfg : BuildConfig) (e : Engine σ) (name : NameArg) (var : VariableArg)
    (w : World σ υ) : Option (Bool × World σ υ) :=
  if CloudClass.variable_static_assert cfg name then
    some (CloudClass._variable cfg e name.c_str var w)
  else Option.none

/-- The kind tag the specification gives to the value's type: bool is Bool; int,
int32 and uint32 are Int; double is Double; String and character data are String. -/
def VariableArg.specKind : VariableArg → Spark_Data_TypeDef
  | .bool_ref _ => .CLOUD_VAR_BOOLEAN
  | .int_ref _ => .CLOUD_VAR_INT
  | .int32_t_ref _ => .CLOUD_VAR_INT
  | .uint32_t_ref _ => .CLOUD_VAR_INT
  | .double_ref _ => .CLOUD_VAR_DOUBLE
  | .String_ref _ => .CLOUD_VAR_STRING
  | .char_pointer _ => .CLOUD_VAR_STRING

/-- The `extra` argument of the calls of `spark_variable` in a trace, in order. -/
def registeredExtras : List EngineCall → List (Option spark_variable_t)
  | [] => []
  | .spark_variable _ _ _ extra :: cs => extra :: registeredExtras cs
  | _ :: cs => registeredExtras cs

/-- The caller's memory, as far as string variables are concerned: the `String`
objects (each holds the pointer to its character buffer) and the character data. -/
structure Memory where
  String_at : Addr → Option Addr
  chars_at : Addr → Option String

/-- Member `update_string_variable(name, type, var, reserved)`: `var` is taken as a
`String` object and its `c_str()` pointer is returned. -/
def CloudClass.update_string_variable (mem : Memory) (_name : String) (_type : Spark_Data_TypeDef)
    (var : Addr) : Option Addr :=
  mem.String_at var

/-- The function a stored `update` pointer stands for. -/
def UpdateFn.call : UpdateFn → Memory → String → Spark_Data_TypeDef → Addr → Option Addr
  | .update_string_variable => CloudClass.update_string_variable

/-- Modelled from the spec: how the engine reads a registered variable is not part
of the sources.  The spec says `extra` "carries an optional accessor callback" and
that the string kind "registers an accessor callback (not a copy) that
dereferences the caller's string object at read time": a read of a string
variable applies the accessor, when there is one, to the registered address and
takes the characters at the pointer it yields; without accessor it takes the
characters at the registered address. -/
def engine_read_string (mem : Memory) (varKey : String) (userVar : Addr)
    (extra : Option spark_variable_t) : Option String :=
  match extra with
  | some x => (x.update.call mem varKey .CLOUD_VAR_STRING userVar).bind mem.chars_at
  | Option.none => mem.chars_at userVar

/-! ## Functions and subscriptions -/

/-- The call `register_function(fn, data, funcKey)`. -/
def register_function (e : Engine σ) (fn : cloud_function_t) (data : Addr) (funcKey : String)
    (w : World σ υ) : Bool × World σ υ :=
  let r := e.register_function fn data funcKey w.engine
  (r.1, { w with engine := r.2, calls := w.calls ++ [.register_function fn data funcKey] })

/-- The call `spark_subscribe(eventName, handler, handler_data, scope, deviceID, NULL)`. -/
def spark_subscribe (e : Engine σ) (eventName : String) (handler : EventHandler)
    (handler_data : Option Addr) (scope : Spark_Subscription_Scope_TypeDef)
    (deviceID : Option String) (w : World σ υ) : Bool × World σ υ :=
  let r := e.spark_subscribe eventName handler handler_data scope deviceID w.engine
  (r.1, { w with engine := r.2,
                 calls := w.calls ++ [.spark_subscribe eventName handler handler_data scope deviceID] })

/-- The expression `new X(obj)`: the address of a fresh object holding a copy of
`obj`, or a null pointer when the heap is exhausted. -/
def operator_new (obj : HeapObject υ) (w : World σ υ) : Option Addr × World σ υ :=
  if w.heap.length < w.heapLimit then
    (some w.heap.length, { w with heap := w.heap ++ [obj] })
  else (Option.none, w)

/-- The callable argument of `function(name, ...)`: a pointer to a free function, a
`std::function` (empty or holding a callable), or a member function with the
object it is bound to. -/
inductive FunctionArg (υ : Type) where
  | function_pointer (func : Addr)
  | std_function (func : Option (user_std_function_int_str_t υ))
  | member_function (func : Addr → user_std_function_int_str_t υ) (object : Addr)

/-- Overload `_function(const char *funcKey, user_function_int_str_t* func)`. -/
def CloudClass._function_ptr (cfg : BuildConfig) (e : Engine σ) (funcKey : String) (func : Addr)
    (w : World σ υ) : Bool × World σ υ :=
  CLOUD_FN cfg (register_function e .call_raw_user_function func funcKey) false w

/-- Overload `_function(const char *funcKey, user_std_function_int_str_t func, void* reserved)`. -/
def CloudClass._function_std (cfg : BuildConfig) (e : Engine σ) (funcKey : String)
    (func : Option (user_std_function_int_str_t υ)) (w : World σ υ) : Bool × World σ υ :=
  if cfg.SPARK_NO_CLOUD then (false, w)
  else
    match func with
    | Option.none => (false, w)
    | some f =>
      -- if the call-wrapper has wrapped a callable object
      let a := operator_new (.function_wrapper f) w
      match a.1 with
      | some wrapper => register_function e .call_std_user_function wrapper funcKey a.2
      | Option.none => (false, a.2)

/-- Overload `_function(funcKey, int (T::*func)(String), T *instance)`: the bound
member function is handed to the `std::function` overload. -/
def CloudClass._function_member (cfg : BuildConfig) (e : Engine σ) (funcKey : String)
    (func : Addr → user_std_function_int_str_t υ) (object : Addr) (w : World σ υ) :
    Bool × World σ υ :=
  CloudClass._function_std cfg e funcKey (some (func object)) w

/-- The overload set `_function`. -/
def CloudClass._function (cfg : BuildConfig) (e : Engine σ) (funcKey : String) :
    FunctionArg υ → World σ υ → Bool × World σ υ
  | .function_pointer func => CloudClass._function_ptr cfg e funcKey func
  | .std_function func => CloudClass._function_std cfg e funcKey func
  | .member_function func object => CloudClass._function_member cfg e funcKey func object

/-- Member `function(const T &name, Types ... args)`: `none` when the `static_assert`
rejects the translation unit. -/
def CloudClass.function (cfg : BuildConfig) (e : Engine σ) (name : NameArg) (arg : FunctionArg υ)
    (w : World σ υ) : Option (Bool × World σ υ) :=
  if CloudClass.function_static_assert cfg name then
    some (CloudClass._function cfg e name.c_str arg w)
  else Option.none

/-- Member `subscribe_wiring(eventName, handler, scope, deviceID)`. -/
def CloudClass.subscribe_wiring (cfg : BuildConfig) (e : Engine σ) (eventName : String)
    (handler : Option (wiring_event_handler_t υ)) (scope : Spark_Subscription_Scope_TypeDef)
    (deviceID : Option String) (w : World σ υ) : Bool × World σ υ :=
  if cfg.SPARK_NO_CLOUD then (false, w)
  else
    match handler with
    | Option.none => (false, w)
    | some h =>
      -- if the call-wrapper has wrapped a callable object
      let a := operator_new (.event_handler_wrapper h) w
      match a.1 with
      | some wrapper =>
        spark_subscribe e eventName .call_wiring_event_handler (some wrapper) scope deviceID a.2
      | Option.none => (false, a.2)

/-- Overload `subscribe(eventName, EventHandler handler, scope)`. -/
def CloudClass.subscribe_raw (cfg : BuildConfig) (e : Engine σ) (eventName : String)
    (handler : Addr) (scope : Spark_Subscription_Scope_TypeDef) (w : World σ υ) :
    Bool × World σ υ :=
  CLOUD_FN cfg (spark_subscribe e eventName (.user handler) Option.none scope Option.none) false w

/-- Overload `subscribe(eventName, EventHandler handler, const char *deviceID)`. -/
def CloudClass.subscribe_raw_device (cfg : BuildConfig) (e : Engine σ) (eventName : String)
    (handler : Addr) (deviceID : String) (w : World σ υ) : Bool × World σ υ :=
  CLOUD_FN cfg
    (spark_subscribe e eventName (.user handler) Option.none .MY_DEVICES (some deviceID)) false w

/-- Overload `subscribe(eventName, wiring_event_handler_t handler, scope)`. -/
def CloudClass.subscribe (cfg : BuildConfig) (e : Engine σ) (eventName : String)
    (handler : Option (wiring_event_handler_t υ)) (scope : Spark_Subscription_Scope_TypeDef)
    (w : World σ υ) : Bool × World σ υ :=
  CloudClass.subscribe_wiring cfg e eventName handler scope Option.none w

/-- Overload `subscribe(eventName, wiring_event_handler_t handler, const char *deviceID)`. -/
def CloudClass.subscribe_device (cfg : BuildConfig) (e : Engine σ) (eventName : String)
    (handler : Option (wiring_event_handler_t υ)) (deviceID : String) (w : World σ υ) :
    Bool × World σ υ :=
  CloudClass.subscribe_wiring cfg e eventName handler .MY_DEVICES (some deviceID) w

/-- The calls a member function added to the trace. -/
def newCalls (before after : World σ υ) : List EngineCall :=
  after.calls.drop before.calls.length

/-- The objects a member function added to the heap. -/
def newObjects (before after : World σ υ) : List (HeapObject υ) :=
  after.heap.drop before.heap.length

/-- Modelled from the spec: the trampoline `call_std_user_function` is declared in
the class and defined outside the sources.  The spec says it "receives an opaque
context pointer and a string argument; recovers the original callable from
context and invokes it, returning its integer result", a failed invocation being
reported as a negative value. -/
def CloudClass.call_std_user_function (data : Addr) (param : String) (w : World σ υ) :
    Int × World σ υ :=
  match w.heap[data]? with
  | some (.function_wrapper func) =>
    let r := func param w.user
    (r.1, { w with user := r.2 })
  | _ => (-1, w)

/-- Whether a mask is one bit of a `uint8_t`. -/
def isSingleBit (n : Nat) : Bool :=
  (List.range 8).any (fun i => n == 2 ^ i)

/-- The accessor the specification attaches to a registration: a dynamic string
has `update_string_variable`, every other kind has none. -/
def VariableArg.specExtra : VariableArg → Option spark_variable_t
  | .String_ref _ => some { update := .update_string_variable }
  | _ => Option.none

/-- The memory after the `String` at `var` was given new contents: its buffer is
now at `buffer` and holds `chars`. -/
def Memory.assign (mem : Memory) (var buffer : Addr) (chars : String) : Memory :=
  { String_at := fun a => if a = var then some buffer else mem.String_at a,
    chars_at := fun a => if a = buffer then some chars else mem.chars_at a }

/-! ## A concrete engine, to evaluate the facade on explicit inputs -/

/-- State of the concrete engine: the polls still needed before the link is up,
whether a time sync is in flight, the threading state, the system mode and the
keys registered so far. -/
structure DemoState where
  linkDelay : Nat
  syncPending : Bool
  threading : FeatureState
  mode : System_Mode_TypeDef
  keys : List String
deriving DecidableEq, Repr

/-- Registration in the concrete engine: a key is accepted once. -/
def DemoState.register (s : DemoState) (key : String) : Bool × DemoState :=
  if key ∈ s.keys then (false, s) else (true, { s with keys := key :: s.keys })

/-- A concrete engine: the link comes up after `linkDelay` background steps. -/
def demoEngine : Engine DemoState where
  spark_cloud_flag_connected := fun s => decide (s.linkDelay = 0)
  spark_cloud_flag_connect := fun s => s
  spark_cloud_flag_disconnect := fun s => { s with linkDelay := 1 }
  spark_sync_time_pending := fun s => s.syncPending
  system_thread_get_state := fun s => s.threading
  SystemClass_mode := fun s => s.mode
  spark_variable := fun key _ _ _ s => s.register key
  register_function := fun _ _ key s => s.register key
  publish_event := fun _ _ _ _ s => (⟨decide (s.linkDelay = 0)⟩, s)
  spark_subscribe := fun _ _ _ _ _ s => (true, s)
  background := fun s => { s with linkDelay := s.linkDelay - 1 }

/-- A world around a concrete engine state: empty trace, empty heap with room for
`heapLimit` objects, and a counter as user state. -/
def demoWorld (s : DemoState) (heapLimit : Nat) : World DemoState Nat :=
  { engine := s, user := 0, calls := [], heap := [], heapLimit := heapLimit }

/-- A build with cloud support, 12-character keys and one bit per publish flag. -/
def demoBuild : BuildConfig :=
  { SPARK_NO_CLOUD := false, PLATFORM_ID := 6, USER_VAR_KEY_LENGTH := 12,
    USER_FUNC_KEY_LENGTH := 12, PUBLISH_EVENT_FLAG_PUBLIC := 1, PUBLISH_EVENT_FLAG_PRIVATE := 2,
    PUBLISH_EVENT_FLAG_NO_ACK := 4, PUBLISH_EVENT_FLAG_WITH_ACK := 8, sizeof_pointer := 4,
    sizeof_String := 16 }

/-- The same build with other flag values: `PUBLIC` is the empty mask 0, `PRIVATE`
is 1, `NO_ACK` is 2 and `WITH_ACK` is 8. -/
def demoBuildEmptyPublic : BuildConfig :=
  { demoBuild with PUBLISH_EVENT_FLAG_PUBLIC := 0, PUBLISH_EVENT_FLAG_PRIVATE := 1,
                   PUBLISH_EVENT_FLAG_NO_ACK := 2, PUBLISH_EVENT_FLAG_WITH_ACK := 8 }

/-- The same build with cloud support compiled out. -/
def demoBuildNoCloud : BuildConfig := { demoBuild with SPARK_NO_CLOUD := true }

/-- The same build for `PLATFORM_ID` 3. -/
def demoBuildGcc : BuildConfig := { demoBuild with PLATFORM_ID := 3 }

/-- A connected device in semi-automatic mode without threading. -/
def demoOnline : DemoState :=
  { linkDelay := 0, syncPending := true, threading := .DISABLED, mode := .SEMI_AUTOMATIC,
    keys := [] }

/-- The same device with the link still two background steps away. -/
def demoOffline : DemoState := { demoOnline with linkDelay := 2 }

/-- A memory with one `String` object at address 100 whose buffer, at address
200, holds the characters "old". -/
def demoMemory : Memory :=
  { String_at := fun a => if a = 100 then some 200 else Option.none,
    chars_at := fun a => if a = 200 then some "old" else Option.none }

/-- A callable that counts its invocations in the user state and returns 1. -/
def demoCallable : user_std_function_int_str_t Nat :=
  fun _ n => (1, n + 1)

/-- An event handler that counts its invocations in the user state. -/
def demoHandler : wiring_event_handler_t Nat :=
  fun _ _ n => n + 1

/-! ## Theorems -/

section SyncTime

theorem CLOUD_FN_fst_pending (cfg : BuildConfig) (e : Engine σ) (w : World σ υ) :
    (CLOUD_FN cfg (spark_sync_time_pending e) false w).1 =
      (!cfg.SPARK_NO_CLOUD && e.spark_sync_time_pending w.engine) := by
  unfold CLOUD_FN spark_sync_time_pending
  cases cfg.SPARK_NO_CLOUD <;> simp

theorem CLOUD_FN_snd_engine_pending (cfg : BuildConfig) (e : Engine σ) (w : World σ υ) :
    (CLOUD_FN cfg (spark_sync_time_pending e) false w).2.engine = w.engine := by
  unfold CLOUD_FN spark_sync_time_pending World.record
  cases cfg.SPARK_NO_CLOUD <;> simp

theorem connected_fst (e : Engine σ) (w : World σ υ) :
    (CloudClass.connected e w).1 = e.spark_cloud_flag_connected w.engine := rfl

theorem connected_snd_engine (e : Engine σ) (w : World σ υ) :
    (CloudClass.connected e w).2.engine = w.engine := rfl

theorem disconnected_fst (e : Engine σ) (w : World σ υ) :
    (CloudClass.disconnected e w).1 = !e.spark_cloud_flag_connected w.engine := rfl

theorem syncTimePending_fst (cfg : BuildConfig) (e : Engine σ) (w : World σ υ) :
    (CloudClass.syncTimePending cfg e w).1 =
      (e.spark_cloud_flag_connected w.engine &&
        (!cfg.SPARK_NO_CLOUD && e.spark_sync_time_pending w.engine)) := by
  unfold CloudClass.syncTimePending
  by_cases hc : (CloudClass.connected e w).1 = true
  · have hc2 : e.spark_cloud_flag_connected w.engine = true := hc
    simp only [hc, if_true, CLOUD_FN_fst_pending, connected_snd_engine, hc2, Bool.true_and]
  · have hc2 : e.spark_cloud_flag_connected w.engine = false := by
      simpa [connected_fst] using hc
    simp [hc2, connected_fst]

theorem syncTimeDone_fst (cfg : BuildConfig) (e : Engine σ) (w : World σ υ) :
    (CloudClass.syncTimeDone cfg e w).1 =
      (!(!cfg.SPARK_NO_CLOUD && e.spark_sync_time_pending w.engine) ||
        !e.spark_cloud_flag_connected w.engine) := by
  unfold CloudClass.syncTimeDone
  by_cases hp : (CLOUD_FN cfg (spark_sync_time_pending e) false w).1 = true
  · have hp2 := hp
    rw [CLOUD_FN_fst_pending] at hp2
    simp only [hp, hp2, Bool.not_true, Bool.false_eq_true, if_false, disconnected_fst,
      CLOUD_FN_snd_engine_pending, Bool.false_or]
  · have hp1 : (CLOUD_FN cfg (spark_sync_time_pending e) false w).1 = false := by
      simpa using hp
    have hp2 := hp1
    rw [CLOUD_FN_fst_pending] at hp2
    simp [hp1, hp2]

/-- C1: in a build with cloud support `syncTimePending()` returns true exactly when
`connected()` is true and the engine reports a time sync in flight; whenever
`disconnected()` is true it returns false, whatever the engine reports about the
sync; with cloud support compiled out it is always false.  The query leaves the
engine state as it was. -/
theorem syncTimePending_spec (cfg : BuildConfig) (e : Engine σ) (w : World σ υ) :
    (cfg.SPARK_NO_CLOUD = false →
      ((CloudClass.syncTimePending cfg e w).1 = true ↔
        ((CloudClass.connected e w).1 = true ∧ e.spark_sync_time_pending w.engine = true))) ∧
    ((CloudClass.disconnected e w).1 = true → (CloudClass.syncTimePending cfg e w).1 = false) ∧
    (cfg.SPARK_NO_CLOUD = true → (CloudClass.syncTimePending cfg e w).1 = false) ∧
    (CloudClass.syncTimePending cfg e w).2.engine = w.engine := by
  refine ⟨?_, ?_, ?_, ?_⟩
  · intro h
    simp [syncTimePending_fst, connected_fst, h]
  · intro h
    rw [disconnected_fst] at h
    simp only [Bool.not_eq_true'] at h
    simp [syncTimePending_fst, h]
  · intro h
    simp [syncTimePending_fst, h]
  · unfold CloudClass.syncTimePending
    by_cases hc : (CloudClass.connected e w).1 = true
    · simp only [hc, if_true, CLOUD_FN_snd_engine_pending, connected_snd_engine]
    · simp [hc, connected_snd_engine]

/-- Evaluation of C1 on the concrete engine: a disconnected device whose engine
still reports a sync in flight; a connected one in a build with cloud support. -/
theorem syncTimePending_spec_witness :
    ((CloudClass.disconnected demoEngine (demoWorld demoOffline 0)).1 = true ∧
      demoEngine.spark_sync_time_pending demoOffline = true ∧
      (CloudClass.syncTimePending demoBuild demoEngine (demoWorld demoOffline 0)).1 = false) ∧
    (demoBuild.SPARK_NO_CLOUD = false ∧
      ((CloudClass.syncTimePending demoBuild demoEngine (demoWorld demoOnline 0)).1 = true ↔
        ((CloudClass.connected demoEngine (demoWorld demoOnline 0)).1 = true ∧
          demoEngine.spark_sync_time_pending (demoWorld demoOnline 0).engine = true))) ∧
    (demoBuildNoCloud.SPARK_NO_CLOUD = true ∧
      (CloudClass.syncTimePending demoBuildNoCloud demoEngine (demoWorld demoOnline 0)).1
        = false) :=
  ⟨⟨by decide, by decide,
      (syncTimePending_spec demoBuild demoEngine (demoWorld demoOffline 0)).2.1 (by decide)⟩,
    ⟨by decide, (syncTimePending_spec demoBuild demoEngine (demoWorld demoOnline 0)).1 (by decide)⟩,
    ⟨by decide,
      (syncTimePending_spec demoBuildNoCloud demoEngine (demoWorld demoOnline 0)).2.2.1
        (by decide)⟩⟩

/-- C2: `syncTimeDone()` is true if and only if no sync is pending (the pending
query of the facade, `CLOUD_FN(spark_sync_time_pending(nullptr), false)`, is
false) or the device is disconnected; it is the negation of `syncTimePending()`
on the same state; and in a build with cloud support the pending query is the
engine's own report, for every combination of the two observations. -/
theorem syncTimeDone_spec (cfg : BuildConfig) (e : Engine σ) (w : World σ υ) :
    ((CloudClass.syncTimeDone cfg e w).1 = true ↔
      ((CLOUD_FN cfg (spark_sync_time_pending e) false w).1 = false ∨
        (CloudClass.disconnected e w).1 = true)) ∧
    (CloudClass.syncTimeDone cfg e w).1 = !(CloudClass.syncTimePending cfg e w).1 ∧
    (cfg.SPARK_NO_CLOUD = false →
      ((CloudClass.syncTimeDone cfg e w).1 = true ↔
        (e.spark_sync_time_pending w.engine = false ∨
          e.spark_cloud_flag_connected w.engine = false))) := by
  refine ⟨?_, ?_, ?_⟩
  · rw [syncTimeDone_fst, CLOUD_FN_fst_pending, disconnected_fst]
    cases cfg.SPARK_NO_CLOUD <;> cases e.spark_sync_time_pending w.engine <;>
      cases e.spark_cloud_flag_connected w.engine <;> simp
  · rw [syncTimeDone_fst, syncTimePending_fst]
    cases cfg.SPARK_NO_CLOUD <;> cases e.spark_sync_time_pending w.engine <;>
      cases e.spark_cloud_flag_connected w.engine <;> simp
  · intro h
    rw [syncTimeDone_fst, h]
    cases e.spark_sync_time_pending w.engine <;>
      cases e.spark_cloud_flag_connected w.engine <;> simp

/-- Evaluation of C2 on the concrete engine, connected with a sync in flight: the
sync is not done, and it is pending. -/
theorem syncTimeDone_spec_witness :
    demoBuild.SPARK_NO_CLOUD = false ∧
    (CloudClass.syncTimeDone demoBuild demoEngine (demoWorld demoOnline 0)).1 = false ∧
    (CloudClass.syncTimePending demoBuild demoEngine (demoWorld demoOnline 0)).1 = true ∧
    ((CloudClass.syncTimeDone demoBuild demoEngine (demoWorld demoOnline 0)).1 = true ↔
      (demoEngine.spark_sync_time_pending (demoWorld demoOnline 0).engine = false ∨
        demoEngine.spark_cloud_flag_connected (demoWorld demoOnline 0).engine = false)) :=
  ⟨by decide, by decide, by decide,
    (syncTimeDone_spec demoBuild demoEngine (demoWorld demoOnline 0)).2.2 (by decide)⟩

end SyncTime

section Connect

/-- The wait over `connected`, unfolded one poll. -/
theorem waitUntil_connected_succ (e : Engine σ) (polls : Nat) (w : World σ υ) :
    waitUntil e CloudClass.connected (polls + 1) w =
      if e.spark_cloud_flag_connected w.engine = true then
        Outcome.returned (w.record .spark_cloud_flag_connected)
      else
        waitUntil e CloudClass.connected polls
          { w.record .spark_cloud_flag_connected with engine := e.background w.engine } := by
  rfl

/-- Every call a wait makes is a poll of the predicate. -/
theorem waitUntil_calls (e : Engine σ) (polls : Nat) (w : World σ υ) :
    ∃ m, (waitUntil e CloudClass.connected polls w).world.calls =
      w.calls ++ List.replicate m EngineCall.spark_cloud_flag_connected := by
  induction polls generalizing w with
  | zero => exact ⟨0, by simp [waitUntil, Outcome.world]⟩
  | succ n ih =>
    rw [waitUntil_connected_succ]
    by_cases hc : e.spark_cloud_flag_connected w.engine = true
    · rw [if_pos hc]
      exact ⟨1, by simp [Outcome.world, World.record]⟩
    · rw [if_neg hc]
      obtain ⟨m, hm⟩ := ih { w.record .spark_cloud_flag_connected with
        engine := e.background w.engine }
      refine ⟨m + 1, ?_⟩
      rw [hm]
      simp [World.record, List.replicate_succ]

/-- A wait that has returned saw the predicate true at its last poll, after the
first number of background steps at which it holds. -/
theorem waitUntil_returned (e : Engine σ) (polls : Nat) (w : World σ υ)
    (h : (waitUntil e CloudClass.connected polls w).hasReturned = true) :
    ∃ k, k < polls ∧
      (waitUntil e CloudClass.connected polls w).world.engine = e.background^[k] w.engine ∧
      e.spark_cloud_flag_connected (e.background^[k] w.engine) = true ∧
      (∀ j, j < k → e.spark_cloud_flag_connected (e.background^[j] w.engine) = false) ∧
      (waitUntil e CloudClass.connected polls w).world.calls =
        w.calls ++ (List.replicate k EngineCall.spark_cloud_flag_connected
          ++ [EngineCall.spark_cloud_flag_connected]) := by
  induction polls generalizing w with
  | zero => simp [waitUntil, Outcome.hasReturned] at h
  | succ n ih =>
    rw [waitUntil_connected_succ] at h ⊢
    by_cases hc : e.spark_cloud_flag_connected w.engine = true
    · rw [if_pos hc]
      refine ⟨0, Nat.succ_pos n, ?_⟩
      simp [hc, Outcome.world, World.record]
    · rw [if_neg hc] at h ⊢
      obtain ⟨k, hk, h1, h2, h3, h4⟩ := ih _ h
      dsimp only at h1 h2 h3 h4
      refine ⟨k + 1, Nat.succ_lt_succ hk, ?_, ?_, ?_, ?_⟩
      · rw [h1, Function.iterate_succ_apply]
      · rw [Function.iterate_succ_apply]; exact h2
      · intro j hj
        cases j with
        | zero => simpa using hc
        | succ i =>
          rw [Function.iterate_succ_apply]
          exact h3 i (Nat.lt_of_succ_lt_succ hj)
      · rw [h4]
        simp [World.record, List.replicate_succ]

/-- A wait returns within `polls` polls exactly when the predicate holds after
fewer than `polls` background steps. -/
theorem waitUntil_returned_iff (e : Engine σ) (polls : Nat) (w : World σ υ) :
    (waitUntil e CloudClass.connected polls w).hasReturned = true ↔
      ∃ k, k < polls ∧ e.spark_cloud_flag_connected (e.background^[k] w.engine) = true := by
  constructor
  · intro h
    obtain ⟨k, hk, _, h2, _⟩ := waitUntil_returned e polls w h
    exact ⟨k, hk, h2⟩
  · induction polls generalizing w with
    | zero => rintro ⟨k, hk, _⟩; exact absurd hk (Nat.not_lt_zero k)
    | succ n ih =>
      rintro ⟨k, hk, hconn⟩
      rw [waitUntil_connected_succ]
      by_cases hc : e.spark_cloud_flag_connected w.engine = true
      · rw [if_pos hc]; rfl
      · rw [if_neg hc]
        apply ih
        cases k with
        | zero => exact absurd hconn hc
        | succ i =>
          refine ⟨i, Nat.lt_of_succ_lt_succ hk, ?_⟩
          rw [Function.iterate_succ_apply] at hconn
          exact hconn

theorem connect_blocking (e : Engine σ) (polls : Nat) (w : World σ υ)
    (h : blockingConfiguration e w) :
    CloudClass.connect e polls w =
      waitUntil e CloudClass.connected polls (connectWaitStart e w) := by
  obtain ⟨h1, h2⟩ := h
  unfold CloudClass.connect connectWaitStart
  simp [system_thread_get_state, SystemClass_mode, spark_cloud_flag_connect, World.record, h1, h2]

theorem connect_not_blocking (e : Engine σ) (polls : Nat) (w : World σ υ)
    (h : ¬ blockingConfiguration e w) :
    CloudClass.connect e polls w =
      Outcome.returned
        { w with engine := e.spark_cloud_flag_connect w.engine,
                 calls := w.calls ++ .spark_cloud_flag_connect :: .system_thread_get_state ::
                   (if e.system_thread_get_state (e.spark_cloud_flag_connect w.engine)
                      = FeatureState.DISABLED then [EngineCall.SystemClass_mode] else []) } := by
  unfold blockingConfiguration at h
  unfold CloudClass.connect
  by_cases h1 : e.system_thread_get_state (e.spark_cloud_flag_connect w.engine)
      = FeatureState.DISABLED
  · have h2 : ¬ e.SystemClass_mode (e.spark_cloud_flag_connect w.engine)
        = System_Mode_TypeDef.SEMI_AUTOMATIC := fun h2 => h ⟨h1, h2⟩
    simp [system_thread_get_state, SystemClass_mode, spark_cloud_flag_connect, World.record, h1, h2]
  · simp [system_thread_get_state, spark_cloud_flag_connect, World.record, h1]

/-- C3: `connect()` first sets the connect-intent flag.  With threading disabled
and semi-automatic mode it returns within a number of polls exactly when the
connected-predicate holds after fewer background steps than that, and when it
has returned its last call was a poll of the predicate that saw it true, at the
first background step where the predicate holds.  Under
every other combination it has returned with no poll at all (even with zero
polls allowed), whatever the connection state, leaving the engine as the flag
call left it. -/
theorem connect_spec (e : Engine σ) (polls : Nat) (w : World σ υ) :
    (∃ rest, (CloudClass.connect e polls w).world.calls =
        w.calls ++ EngineCall.spark_cloud_flag_connect :: rest) ∧
    (blockingConfiguration e w →
      ((CloudClass.connect e polls w).hasReturned = true ↔
        ∃ k, k < polls ∧ e.spark_cloud_flag_connected
          (e.background^[k] (e.spark_cloud_flag_connect w.engine)) = true) ∧
      ((CloudClass.connect e polls w).hasReturned = true →
        e.spark_cloud_flag_connected (CloudClass.connect e polls w).world.engine = true ∧
        (CloudClass.connect e polls w).world.calls.getLast?
          = some EngineCall.spark_cloud_flag_connected ∧
        ∃ k, k < polls ∧
          (CloudClass.connect e polls w).world.engine =
            e.background^[k] (e.spark_cloud_flag_connect w.engine) ∧
          ∀ j, j < k → e.spark_cloud_flag_connected
            (e.background^[j] (e.spark_cloud_flag_connect w.engine)) = false)) ∧
    (¬ blockingConfiguration e w →
      (CloudClass.connect e polls w).hasReturned = true ∧
      (CloudClass.connect e polls w).world.engine = e.spark_cloud_flag_connect w.engine ∧
      EngineCall.spark_cloud_flag_connected ∉
        newCalls w (CloudClass.connect e polls w).world) := by
  refine ⟨?_, ?_, ?_⟩
  · by_cases hb : blockingConfiguration e w
    · rw [connect_blocking e polls w hb]
      obtain ⟨m, hm⟩ := waitUntil_calls e polls (connectWaitStart e w)
      rw [hm]
      exact ⟨EngineCall.system_thread_get_state :: EngineCall.SystemClass_mode ::
        List.replicate m EngineCall.spark_cloud_flag_connected, by simp [connectWaitStart]⟩
    · rw [connect_not_blocking e polls w hb]
      exact ⟨_, rfl⟩
  · intro hb
    rw [connect_blocking e polls w hb]
    refine ⟨waitUntil_returned_iff e polls _, ?_⟩
    intro hr
    obtain ⟨k, hk, h1, h2, h3, h4⟩ := waitUntil_returned e polls _ hr
    refine ⟨?_, ?_, ⟨k, hk, h1, h3⟩⟩
    · rw [h1]; exact h2
    · rw [h4, ← List.append_assoc, List.getLast?_concat]
  · intro hb
    rw [connect_not_blocking e polls w hb]
    refine ⟨rfl, rfl, ?_⟩
    simp only [Outcome.world, newCalls, List.drop_left]
    by_cases h1 : e.system_thread_get_state (e.spark_cloud_flag_connect w.engine)
        = FeatureState.DISABLED <;> simp [h1]

/-- Evaluation of C3 on the concrete engine.  Semi-automatic without threading and
the link two background steps away: not returned after two polls, returned after
three, connected then.  Automatic mode with the same link: returned with no poll
allowed, still disconnected. -/
theorem connect_spec_witness :
    (blockingConfiguration demoEngine (demoWorld demoOffline 0) ∧
      (CloudClass.connect demoEngine 2 (demoWorld demoOffline 0)).hasReturned = false ∧
      ((CloudClass.connect demoEngine 3 (demoWorld demoOffline 0)).hasReturned = true ↔
        ∃ k, k < 3 ∧ demoEngine.spark_cloud_flag_connected
          (demoEngine.background^[k]
            (demoEngine.spark_cloud_flag_connect (demoWorld demoOffline 0).engine)) = true) ∧
      (CloudClass.connect demoEngine 3 (demoWorld demoOffline 0)).hasReturned = true ∧
      demoEngine.spark_cloud_flag_connected
        (CloudClass.connect demoEngine 3 (demoWorld demoOffline 0)).world.engine = true) ∧
    (¬ blockingConfiguration demoEngine
        (demoWorld { demoOffline with mode := System_Mode_TypeDef.AUTOMATIC } 0) ∧
      (CloudClass.connect demoEngine 0
        (demoWorld { demoOffline with mode := System_Mode_TypeDef.AUTOMATIC } 0)).hasReturned
          = true ∧
      EngineCall.spark_cloud_flag_connected ∉
        newCalls (demoWorld { demoOffline with mode := System_Mode_TypeDef.AUTOMATIC } 0)
          (CloudClass.connect demoEngine 0
            (demoWorld { demoOffline with mode := System_Mode_TypeDef.AUTOMATIC } 0)).world) :=
  have hb : blockingConfiguration demoEngine (demoWorld demoOffline 0) := ⟨rfl, rfl⟩
  have hn : ¬ blockingConfiguration demoEngine
      (demoWorld { demoOffline with mode := System_Mode_TypeDef.AUTOMATIC } 0) :=
    fun h => absurd h.2 (by decide)
  ⟨⟨hb, by decide,
      ((connect_spec demoEngine 3 (demoWorld demoOffline 0)).2.1 hb).1,
      by decide,
      (((connect_spec demoEngine 3 (demoWorld demoOffline 0)).2.1 hb).2 (by decide)).1⟩,
    ⟨hn,
      ((connect_spec demoEngine 0
        (demoWorld { demoOffline with mode := System_Mode_TypeDef.AUTOMATIC } 0)).2.2 hn).1,
      ((connect_spec demoEngine 0
        (demoWorld { demoOffline with mode := System_Mode_TypeDef.AUTOMATIC } 0)).2.2 hn).2.2⟩⟩

end Connect

section Publish

theorem newCalls_publish_ttl (e : Engine σ) (eventName : String) (eventData : Option String)
    (ttl : Int) (flags1 flags2 : Flags) (w : World σ υ) :
    newCalls w (CloudClass.publish_ttl e eventName eventData ttl flags1 flags2 w).2 =
      [EngineCall.publish_event eventName eventData ttl (flags1.value ||| flags2.value)] := by
  simp [newCalls, CloudClass.publish_ttl, publish_event, Flags.or]

theorem publishedFlags_publish_ttl (e : Engine σ) (eventName : String)
    (eventData : Option String) (ttl : Int) (flags1 flags2 : Flags) (w : World σ υ) :
    publishedFlags (newCalls w (CloudClass.publish_ttl e eventName eventData ttl flags1 flags2 w).2)
      = [flags1.value ||| flags2.value] := by
  rw [newCalls_publish_ttl]
  rfl

/-- Evaluation of `publish(name)` on the concrete engine: one call of the publish
operation with no data, 60 seconds and the mask of `PUBLIC`; the connected engine
resolves it to true. -/
theorem publish_name_demo :
    newCalls (demoWorld demoOnline 0)
      (CloudClass.publish_name demoBuild demoEngine "motion" (demoWorld demoOnline 0)).2 =
      [EngineCall.publish_event "motion" Option.none 60 1] ∧
    (CloudClass.publish_name demoBuild demoEngine "motion" (demoWorld demoOnline 0)).1.result
      = true := by
  decide

/-- C4: `publish(name)` makes one call of the engine's publish operation, with that
name, no data, a time-to-live of 60 and the flag set of `PUBLIC` alone; what it
returns is the engine's asynchronous result, and the engine is left in the state
that call produced. -/
theorem publish_name_spec (cfg : BuildConfig) (e : Engine σ) (eventName : String)
    (w : World σ υ) :
    newCalls w (CloudClass.publish_name cfg e eventName w).2 =
      [EngineCall.publish_event eventName Option.none 60 (PublishFlag.PUBLIC.value cfg)] ∧
    (CloudClass.publish_name cfg e eventName w).1 =
      (e.publish_event eventName Option.none 60 (PublishFlag.PUBLIC.value cfg) w.engine).1 ∧
    (CloudClass.publish_name cfg e eventName w).2.engine =
      (e.publish_event eventName Option.none 60 (PublishFlag.PUBLIC.value cfg) w.engine).2 := by
  refine ⟨?_, ?_, ?_⟩
  · unfold CloudClass.publish_name CloudClass.publish CloudClass.publish_data
    rw [newCalls_publish_ttl]
    simp [Flags.ofFlag, Flags.none]
  · simp [CloudClass.publish_name, CloudClass.publish, CloudClass.publish_data,
      CloudClass.publish_ttl, publish_event, Flags.or, Flags.ofFlag, Flags.none]
  · simp [CloudClass.publish_name, CloudClass.publish, CloudClass.publish_data,
      CloudClass.publish_ttl, publish_event, Flags.or, Flags.ofFlag, Flags.none]

theorem isSingleBit_eq_two_pow {n : Nat} (h : isSingleBit n = true) : ∃ i, n = 2 ^ i := by
  unfold isSingleBit at h
  rw [List.any_eq_true] at h
  obtain ⟨i, _, hi⟩ := h
  exact ⟨i, by simpa using hi⟩

/-- The union of two different bits is no single bit. -/
theorem two_pow_or_ne_two_pow {i j : Nat} (hij : i ≠ j) (k : Nat) :
    (2 ^ i ||| 2 ^ j : Nat) ≠ 2 ^ k := by
  intro h
  by_cases hk : k = i
  · have := congrArg (fun n => Nat.testBit n j) h
    simp only [Nat.testBit_or, Nat.testBit_two_pow_self, Bool.or_true] at this
    rw [Nat.testBit_two_pow_of_ne (by omega)] at this
    exact absurd this (by decide)
  · have := congrArg (fun n => Nat.testBit n i) h
    simp only [Nat.testBit_or, Nat.testBit_two_pow_self, Bool.true_or] at this
    rw [Nat.testBit_two_pow_of_ne hk] at this
    exact absurd this (by decide)

/-- The union of two different bits is not the empty mask. -/
theorem two_pow_or_ne_zero (i j : Nat) : (2 ^ i ||| 2 ^ j : Nat) ≠ 0 := by
  intro h
  have := congrArg (fun n => Nat.testBit n i) h
  simp [Nat.testBit_or, Nat.testBit_two_pow_self] at this

/-- A mask changes under `|` exactly when the other mask has a bit it lacks. -/
theorem or_ne_left_iff (x y : Nat) :
    x ||| y ≠ x ↔ ∃ i, y.testBit i = true ∧ x.testBit i = false := by
  constructor
  · intro h
    by_contra hne
    apply h
    apply Nat.eq_of_testBit_eq
    intro i
    rw [Nat.testBit_or]
    cases hy : y.testBit i
    · simp
    · cases hx : x.testBit i
      · exact absurd ⟨i, hy, hx⟩ hne
      · rfl
  · rintro ⟨i, hy, hx⟩ h
    have := congrArg (fun n => Nat.testBit n i) h
    simp [Nat.testBit_or, hy, hx] at this

theorem publishedFlags_publish (e : Engine σ) (eventName : String) (flags1 flags2 : Flags)
    (w : World σ υ) :
    publishedFlags (newCalls w (CloudClass.publish e eventName flags1 flags2 w).2)
      = [flags1.value ||| flags2.value] := by
  unfold CloudClass.publish CloudClass.publish_data
  exact publishedFlags_publish_ttl e eventName Option.none 60 flags1 flags2 w

/-- C5, as the code has it.  The flag value handed to the engine is the bitwise or
of the values of the flags, unmodified: `a | b` for a pair, the value of `a` for
one flag, the value of `PUBLIC` by default.  The value for `a | b` differs from
the value for `a` alone exactly when `b` has a bit that `a` lacks, likewise for
`b` alone, and from the default exactly when the or is not the value of
`PUBLIC`.  So it differs from all three when `a` and `b` are two different
single bits and `PUBLIC` is a single bit or the empty mask; and a flag that is
the empty mask adds nothing: combined with `b` it reaches the engine as `b`
alone. -/
theorem publish_flags_passed (cfg : BuildConfig) (e : Engine σ) (eventName : String)
    (a b : PublishFlag) (w : World σ υ) :
    (publishedFlags (newCalls w (CloudClass.publish_name_pair cfg e eventName a b w).2)
        = [a.value cfg ||| b.value cfg] ∧
      publishedFlags (newCalls w (CloudClass.publish_name_flag cfg e eventName a w).2)
        = [a.value cfg] ∧
      publishedFlags (newCalls w (CloudClass.publish_name_flag cfg e eventName b w).2)
        = [b.value cfg] ∧
      publishedFlags (newCalls w (CloudClass.publish_name cfg e eventName w).2)
        = [PublishFlag.PUBLIC.value cfg]) ∧
    ((publishedFlags (newCalls w (CloudClass.publish_name_pair cfg e eventName a b w).2) ≠
        publishedFlags (newCalls w (CloudClass.publish_name_flag cfg e eventName a w).2) ↔
        ∃ i, (b.value cfg).testBit i = true ∧ (a.value cfg).testBit i = false) ∧
      (publishedFlags (newCalls w (CloudClass.publish_name_pair cfg e eventName a b w).2) ≠
        publishedFlags (newCalls w (CloudClass.publish_name_flag cfg e eventName b w).2) ↔
        ∃ i, (a.value cfg).testBit i = true ∧ (b.value cfg).testBit i = false) ∧
      (publishedFlags (newCalls w (CloudClass.publish_name_pair cfg e eventName a b w).2) ≠
        publishedFlags (newCalls w (CloudClass.publish_name cfg e eventName w).2) ↔
        a.value cfg ||| b.value cfg ≠ PublishFlag.PUBLIC.value cfg)) ∧
    (isSingleBit (a.value cfg) = true → isSingleBit (b.value cfg) = true →
      a.value cfg ≠ b.value cfg →
      (isSingleBit (PublishFlag.PUBLIC.value cfg) = true ∨ PublishFlag.PUBLIC.value cfg = 0) →
      publishedFlags (newCalls w (CloudClass.publish_name_pair cfg e eventName a b w).2) ≠
        publishedFlags (newCalls w (CloudClass.publish_name_flag cfg e eventName a w).2) ∧
      publishedFlags (newCalls w (CloudClass.publish_name_pair cfg e eventName a b w).2) ≠
        publishedFlags (newCalls w (CloudClass.publish_name_flag cfg e eventName b w).2) ∧
      publishedFlags (newCalls w (CloudClass.publish_name_pair cfg e eventName a b w).2) ≠
        publishedFlags (newCalls w (CloudClass.publish_name cfg e eventName w).2)) ∧
    (a.value cfg = 0 →
      publishedFlags (newCalls w (CloudClass.publish_name_pair cfg e eventName a b w).2) =
        publishedFlags (newCalls w (CloudClass.publish_name_flag cfg e eventName b w).2)) := by
  have hpair : publishedFlags
      (newCalls w (CloudClass.publish_name_pair cfg e eventName a b w).2)
        = [a.value cfg ||| b.value cfg] := by
    unfold CloudClass.publish_name_pair
    rw [publishedFlags_publish]
    simp [Flags.or, Flags.ofFlag, Flags.none]
  have hflag : ∀ f : PublishFlag, publishedFlags
      (newCalls w (CloudClass.publish_name_flag cfg e eventName f w).2) = [f.value cfg] := by
    intro f
    unfold CloudClass.publish_name_flag
    rw [publishedFlags_publish]
    simp [Flags.ofFlag, Flags.none]
  have hdefault : publishedFlags (newCalls w (CloudClass.publish_name cfg e eventName w).2)
      = [PublishFlag.PUBLIC.value cfg] := by
    unfold CloudClass.publish_name
    rw [publishedFlags_publish]
    simp [Flags.ofFlag, Flags.none]
  have hsingle : ∀ x y : Nat, [x] ≠ [y] ↔ x ≠ y := by
    intro x y
    simp
  refine ⟨⟨hpair, hflag a, hflag b, hdefault⟩, ⟨?_, ?_, ?_⟩, ?_, ?_⟩
  · rw [hpair, hflag a, hsingle]
    exact or_ne_left_iff (a.value cfg) (b.value cfg)
  · rw [hpair, hflag b, hsingle, Nat.lor_comm]
    exact or_ne_left_iff (b.value cfg) (a.value cfg)
  · rw [hpair, hdefault, hsingle]
  · intro ha hb hab hpub
    obtain ⟨i, hi⟩ := isSingleBit_eq_two_pow ha
    obtain ⟨j, hj⟩ := isSingleBit_eq_two_pow hb
    have hij : i ≠ j := by
      intro hEq
      apply hab
      rw [hi, hj, hEq]
    rw [hpair, hflag a, hflag b, hdefault, hsingle, hsingle, hsingle, hi, hj]
    refine ⟨two_pow_or_ne_two_pow hij i, two_pow_or_ne_two_pow hij j, ?_⟩
    rcases hpub with hp | hp
    · obtain ⟨k, hk⟩ := isSingleBit_eq_two_pow hp
      rw [hk]
      exact two_pow_or_ne_two_pow hij k
    · rw [hp]
      exact two_pow_or_ne_zero i j
  · intro ha
    rw [hpair, hflag b, ha, Nat.zero_or]

/-- Evaluation of C5 in the build where `PUBLIC` is the empty mask: `PRIVATE` (1)
and `WITH_ACK` (8) are two different single bits, `PRIVATE | WITH_ACK` reaches
the engine as 9, and that differs from `PRIVATE` alone, from `WITH_ACK` alone and
from the default. -/
theorem publish_flags_passed_witness :
    (isSingleBit (PublishFlag.PRIVATE.value demoBuildEmptyPublic) = true ∧
      isSingleBit (PublishFlag.WITH_ACK.value demoBuildEmptyPublic) = true ∧
      PublishFlag.PRIVATE.value demoBuildEmptyPublic ≠
        PublishFlag.WITH_ACK.value demoBuildEmptyPublic ∧
      PublishFlag.PUBLIC.value demoBuildEmptyPublic = 0) ∧
    publishedFlags (newCalls (demoWorld demoOnline 0)
      (CloudClass.publish_name_pair demoBuildEmptyPublic demoEngine "temp"
        PublishFlag.PRIVATE PublishFlag.WITH_ACK (demoWorld demoOnline 0)).2) = [9] ∧
    (publishedFlags (newCalls (demoWorld demoOnline 0)
        (CloudClass.publish_name_pair demoBuildEmptyPublic demoEngine "temp"
          PublishFlag.PRIVATE PublishFlag.WITH_ACK (demoWorld demoOnline 0)).2) ≠
        publishedFlags (newCalls (demoWorld demoOnline 0)
          (CloudClass.publish_name_flag demoBuildEmptyPublic demoEngine "temp"
            PublishFlag.PRIVATE (demoWorld demoOnline 0)).2) ∧
      publishedFlags (newCalls (demoWorld demoOnline 0)
        (CloudClass.publish_name_pair demoBuildEmptyPublic demoEngine "temp"
          PublishFlag.PRIVATE PublishFlag.WITH_ACK (demoWorld demoOnline 0)).2) ≠
        publishedFlags (newCalls (demoWorld demoOnline 0)
          (CloudClass.publish_name_flag demoBuildEmptyPublic demoEngine "temp"
            PublishFlag.WITH_ACK (demoWorld demoOnline 0)).2) ∧
      publishedFlags (newCalls (demoWorld demoOnline 0)
        (CloudClass.publish_name_pair demoBuildEmptyPublic demoEngine "temp"
          PublishFlag.PRIVATE PublishFlag.WITH_ACK (demoWorld demoOnline 0)).2) ≠
        publishedFlags (newCalls (demoWorld demoOnline 0)
          (CloudClass.publish_name demoBuildEmptyPublic demoEngine "temp"
            (demoWorld demoOnline 0)).2)) :=
  ⟨⟨by decide, by decide, by decide, by decide⟩, by decide,
    (publish_flags_passed demoBuildEmptyPublic demoEngine "temp" PublishFlag.PRIVATE
      PublishFlag.WITH_ACK (demoWorld demoOnline 0)).2.2.1 (by decide) (by decide) (by decide)
      (Or.inr (by decide))⟩

/-- C5 as stated fails in the build where `PUBLIC` is the empty mask: `PUBLIC` and
`WITH_ACK` are two different flags, and `PUBLIC | WITH_ACK` reaches the engine
as 8, the value `WITH_ACK` alone reaches it with; `PUBLIC | PRIVATE` reaches it
as 1, as `PRIVATE` alone does. -/
theorem publish_flags_counterexample :
    PublishFlag.PUBLIC ≠ PublishFlag.WITH_ACK ∧
    publishedFlags (newCalls (demoWorld demoOnline 0)
      (CloudClass.publish_name_pair demoBuildEmptyPublic demoEngine "temp"
        PublishFlag.PUBLIC PublishFlag.WITH_ACK (demoWorld demoOnline 0)).2) = [8] ∧
    publishedFlags (newCalls (demoWorld demoOnline 0)
      (CloudClass.publish_name_flag demoBuildEmptyPublic demoEngine "temp"
        PublishFlag.WITH_ACK (demoWorld demoOnline 0)).2) = [8] ∧
    PublishFlag.PUBLIC ≠ PublishFlag.PRIVATE ∧
    publishedFlags (newCalls (demoWorld demoOnline 0)
      (CloudClass.publish_name_pair demoBuildEmptyPublic demoEngine "temp"
        PublishFlag.PUBLIC PublishFlag.PRIVATE (demoWorld demoOnline 0)).2) =
      publishedFlags (newCalls (demoWorld demoOnline 0)
        (CloudClass.publish_name_flag demoBuildEmptyPublic demoEngine "temp"
          PublishFlag.PRIVATE (demoWorld demoOnline 0)).2) := by
  decide

end Publish

section Variables

theorem newCalls_self (w : World σ υ) : newCalls w w = [] := by
  simp [newCalls]

theorem CLOUD_FN_spark_variable (cfg : BuildConfig) (e : Engine σ) (varKey : String)
    (userVar : Addr) (userVarType : Spark_Data_TypeDef) (extra : Option spark_variable_t)
    (w : World σ υ) :
    CLOUD_FN cfg (spark_variable e varKey userVar userVarType extra) false w =
      if cfg.SPARK_NO_CLOUD = true then (false, w)
      else ((e.spark_variable varKey userVar userVarType extra w.engine).1,
        { w with engine := (e.spark_variable varKey userVar userVarType extra w.engine).2,
                 calls := w.calls ++ [.spark_variable varKey userVar userVarType extra] }) := by
  rfl

/-- Every typed overload ends in one `CLOUD_FN(spark_variable(...), false)` with the
caller's address, the kind of the value's type and the accessor of that kind. -/
theorem _variable_eq (cfg : BuildConfig) (e : Engine σ) (varKey : String) (var : VariableArg)
    (w : World σ υ) :
    CloudClass._variable cfg e varKey var w =
      CLOUD_FN cfg (spark_variable e varKey var.address var.specKind var.specExtra) false w := by
  cases var <;> rfl

/-- C6: a call `variable(name, value)` that passes the name check, for each
supported kind of value.  With cloud support it makes exactly one call of
`spark_variable`, carrying the name, the address of the caller's storage and the
kind tag of the value's type; it creates no object of its own and returns the
engine's answer.  With cloud support compiled out it returns false and makes no
call. -/
theorem variable_spec (cfg : BuildConfig) (e : Engine σ) (name : NameArg) (var : VariableArg)
    (w : World σ υ) (hname : CloudClass.variable_static_assert cfg name = true) :
    ∃ r, CloudClass.variable cfg e name var w = some r ∧
      (cfg.SPARK_NO_CLOUD = false →
        ∃ extra,
          newCalls w r.2 =
            [EngineCall.spark_variable name.c_str var.address var.specKind extra] ∧
          r.1 = (e.spark_variable name.c_str var.address var.specKind extra w.engine).1 ∧
          r.2.engine = (e.spark_variable name.c_str var.address var.specKind extra w.engine).2 ∧
          r.2.heap = w.heap) ∧
      (cfg.SPARK_NO_CLOUD = true → r.1 = false ∧ newCalls w r.2 = [] ∧ r.2.engine = w.engine) := by
  refine ⟨CloudClass._variable cfg e name.c_str var w, ?_, ?_, ?_⟩
  · simp [CloudClass.variable, hname]
  · intro hc
    refine ⟨var.specExtra, ?_⟩
    rw [_variable_eq, CLOUD_FN_spark_variable]
    simp [hc, newCalls]
  · intro hc
    rw [_variable_eq, CLOUD_FN_spark_variable]
    simp [hc, newCalls]

/-- Evaluation of C6 on the concrete engine: an `int` at address 100 registered
under the literal name "temp" is accepted, with one call tagged `CLOUD_VAR_INT`. -/
theorem variable_spec_witness :
    CloudClass.variable_static_assert demoBuild (NameArg.literal "temp") = true ∧
    (∃ r, CloudClass.variable demoBuild demoEngine (NameArg.literal "temp")
        (VariableArg.int_ref 100) (demoWorld demoOnline 0) = some r ∧
      (demoBuild.SPARK_NO_CLOUD = false →
        ∃ extra,
          newCalls (demoWorld demoOnline 0) r.2 =
            [EngineCall.spark_variable "temp" 100 Spark_Data_TypeDef.CLOUD_VAR_INT extra] ∧
          r.1 = (demoEngine.spark_variable "temp" 100 Spark_Data_TypeDef.CLOUD_VAR_INT extra
            (demoWorld demoOnline 0).engine).1 ∧
          r.2.engine = (demoEngine.spark_variable "temp" 100 Spark_Data_TypeDef.CLOUD_VAR_INT
            extra (demoWorld demoOnline 0).engine).2 ∧
          r.2.heap = (demoWorld demoOnline 0).heap) ∧
      (demoBuild.SPARK_NO_CLOUD = true →
        r.1 = false ∧ newCalls (demoWorld demoOnline 0) r.2 = [] ∧
          r.2.engine = (demoWorld demoOnline 0).engine)) :=
  ⟨by decide,
    variable_spec demoBuild demoEngine (NameArg.literal "temp") (VariableArg.int_ref 100)
      (demoWorld demoOnline 0) (by decide)⟩

/-- C7: the registration of a value attaches the accessor `update_string_variable`
when the value is a `String` and no accessor for any other kind.  For a memory in
which the `String` at `var` has its buffer at `buffer` holding `chars`, the
accessor applied to `var` yields the pointer to those characters, and so does a
read through the engine with the registered accessor: the contents at read time,
whatever they were when the variable was registered. -/
theorem string_variable_accessor (cfg : BuildConfig) (e : Engine σ) (varKey : String)
    (w : World σ υ) (mem : Memory) (var buffer : Addr) (chars : String)
    (hobj : mem.String_at var = some buffer) (hbuf : mem.chars_at buffer = some chars) :
    (∀ arg : VariableArg,
      registeredExtras (newCalls w (CloudClass._variable cfg e varKey arg w).2) =
        if cfg.SPARK_NO_CLOUD = true then [] else [arg.specExtra]) ∧
    (∀ arg : VariableArg, arg.specExtra.isSome = true ↔ ∃ a, arg = VariableArg.String_ref a) ∧
    CloudClass.update_string_variable mem varKey Spark_Data_TypeDef.CLOUD_VAR_STRING var
      = some buffer ∧
    (∀ extra ∈ registeredExtras
        (newCalls w (CloudClass._variable cfg e varKey (VariableArg.String_ref var) w).2),
      engine_read_string mem varKey var extra = some chars) := by
  have hextras : ∀ arg : VariableArg,
      registeredExtras (newCalls w (CloudClass._variable cfg e varKey arg w).2) =
        if cfg.SPARK_NO_CLOUD = true then [] else [arg.specExtra] := by
    intro arg
    rw [_variable_eq, CLOUD_FN_spark_variable]
    by_cases hc : cfg.SPARK_NO_CLOUD = true
    · simp [hc, newCalls, registeredExtras]
    · simp [hc, newCalls, registeredExtras]
  refine ⟨hextras, ?_, hobj, ?_⟩
  · intro arg
    cases arg <;> simp [VariableArg.specExtra]
  · intro extra hmem
    rw [hextras] at hmem
    by_cases hc : cfg.SPARK_NO_CLOUD = true
    · simp [hc] at hmem
    · rw [if_neg hc, List.mem_singleton] at hmem
      subst hmem
      simp [VariableArg.specExtra, engine_read_string, UpdateFn.call,
        CloudClass.update_string_variable, hobj, hbuf]

/-- Evaluation of C7: the `String` at address 100 held "old" when it was
registered; after it was given "new" (in a buffer at 300) the accessor yields the
new buffer and the read through the engine yields "new". -/
theorem string_variable_accessor_witness :
    engine_read_string demoMemory "name" 100 (some { update := UpdateFn.update_string_variable })
      = some "old" ∧
    CloudClass.update_string_variable (demoMemory.assign 100 300 "new") "name"
      Spark_Data_TypeDef.CLOUD_VAR_STRING 100 = some 300 ∧
    (∀ extra ∈ registeredExtras (newCalls (demoWorld demoOnline 0)
        (CloudClass._variable demoBuild demoEngine "name" (VariableArg.String_ref 100)
          (demoWorld demoOnline 0)).2),
      engine_read_string (demoMemory.assign 100 300 "new") "name" 100 extra = some "new") :=
  ⟨by decide,
    (string_variable_accessor demoBuild demoEngine "name" (demoWorld demoOnline 0)
      (demoMemory.assign 100 300 "new") 100 300 "new" (by decide) (by decide)).2.2.1,
    (string_variable_accessor demoBuild demoEngine "name" (demoWorld demoOnline 0)
      (demoMemory.assign 100 300 "new") 100 300 "new" (by decide) (by decide)).2.2.2⟩

end Variables

section Functions

theorem _function_std_noCloud (cfg : BuildConfig) (e : Engine σ) (funcKey : String)
    (func : Option (user_std_function_int_str_t υ)) (w : World σ υ)
    (hc : cfg.SPARK_NO_CLOUD = true) :
    CloudClass._function_std cfg e funcKey func w = (false, w) := by
  simp [CloudClass._function_std, hc]

theorem _function_std_empty (cfg : BuildConfig) (e : Engine σ) (funcKey : String)
    (w : World σ υ) :
    CloudClass._function_std cfg e funcKey Option.none w = (false, w) := by
  unfold CloudClass._function_std
  split <;> rfl

theorem _function_std_exhausted (cfg : BuildConfig) (e : Engine σ) (funcKey : String)
    (f : user_std_function_int_str_t υ) (w : World σ υ) (hheap : ¬ w.heap.length < w.heapLimit) :
    CloudClass._function_std cfg e funcKey (some f) w = (false, w) := by
  unfold CloudClass._function_std operator_new
  split
  · rfl
  · simp [hheap]

theorem _function_std_wrapped (cfg : BuildConfig) (e : Engine σ) (funcKey : String)
    (f : user_std_function_int_str_t υ) (w : World σ υ) (hc : cfg.SPARK_NO_CLOUD = false)
    (hheap : w.heap.length < w.heapLimit) :
    CloudClass._function_std cfg e funcKey (some f) w =
      ((e.register_function .call_std_user_function w.heap.length funcKey w.engine).1,
        { w with
          engine := (e.register_function .call_std_user_function w.heap.length funcKey w.engine).2,
          calls := w.calls ++ [.register_function .call_std_user_function w.heap.length funcKey],
          heap := w.heap ++ [.function_wrapper f] }) := by
  simp [CloudClass._function_std, operator_new, register_function, hc, hheap]

theorem subscribe_wiring_noCloud (cfg : BuildConfig) (e : Engine σ) (eventName : String)
    (handler : Option (wiring_event_handler_t υ)) (scope : Spark_Subscription_Scope_TypeDef)
    (deviceID : Option String) (w : World σ υ) (hc : cfg.SPARK_NO_CLOUD = true) :
    CloudClass.subscribe_wiring cfg e eventName handler scope deviceID w = (false, w) := by
  simp [CloudClass.subscribe_wiring, hc]

theorem subscribe_wiring_empty (cfg : BuildConfig) (e : Engine σ) (eventName : String)
    (scope : Spark_Subscription_Scope_TypeDef) (deviceID : Option String) (w : World σ υ) :
    CloudClass.subscribe_wiring cfg e eventName Option.none scope deviceID w = (false, w) := by
  unfold CloudClass.subscribe_wiring
  split <;> rfl

theorem subscribe_wiring_exhausted (cfg : BuildConfig) (e : Engine σ) (eventName : String)
    (h : wiring_event_handler_t υ) (scope : Spark_Subscription_Scope_TypeDef)
    (deviceID : Option String) (w : World σ υ) (hheap : ¬ w.heap.length < w.heapLimit) :
    CloudClass.subscribe_wiring cfg e eventName (some h) scope deviceID w = (false, w) := by
  unfold CloudClass.subscribe_wiring operator_new
  split
  · rfl
  · simp [hheap]

theorem subscribe_wiring_wrapped (cfg : BuildConfig) (e : Engine σ) (eventName : String)
    (h : wiring_event_handler_t υ) (scope : Spark_Subscription_Scope_TypeDef)
    (deviceID : Option String) (w : World σ υ) (hc : cfg.SPARK_NO_CLOUD = false)
    (hheap : w.heap.length < w.heapLimit) :
    CloudClass.subscribe_wiring cfg e eventName (some h) scope deviceID w =
      ((e.spark_subscribe eventName .call_wiring_event_handler (some w.heap.length) scope
          deviceID w.engine).1,
        { w with
          engine := (e.spark_subscribe eventName .call_wiring_event_handler (some w.heap.length)
            scope deviceID w.engine).2,
          calls := w.calls ++ [.spark_subscribe eventName .call_wiring_event_handler
            (some w.heap.length) scope deviceID],
          heap := w.heap ++ [.event_handler_wrapper h] }) := by
  simp [CloudClass.subscribe_wiring, operator_new, spark_subscribe, hc, hheap]

/-- What the `std::function` overload of `_function` does, by cases. -/
theorem _function_std_cases (cfg : BuildConfig) (e : Engine σ) (funcKey : String)
    (func : Option (user_std_function_int_str_t υ)) (w : World σ υ) :
    CloudClass._function_std cfg e funcKey func w = (false, w) ∨
    ∃ f, func = some f ∧ cfg.SPARK_NO_CLOUD = false ∧
      CloudClass._function_std cfg e funcKey func w =
        ((e.register_function .call_std_user_function w.heap.length funcKey w.engine).1,
          { w with
            engine :=
              (e.register_function .call_std_user_function w.heap.length funcKey w.engine).2,
            calls := w.calls ++ [.register_function .call_std_user_function w.heap.length funcKey],
            heap := w.heap ++ [.function_wrapper f] }) := by
  by_cases hc : cfg.SPARK_NO_CLOUD = true
  · exact Or.inl (_function_std_noCloud cfg e funcKey func w hc)
  · have hc2 : cfg.SPARK_NO_CLOUD = false := by simpa using hc
    cases func with
    | none => exact Or.inl (_function_std_empty cfg e funcKey w)
    | some f =>
      by_cases hheap : w.heap.length < w.heapLimit
      · exact Or.inr ⟨f, rfl, hc2, _function_std_wrapped cfg e funcKey f w hc2 hheap⟩
      · exact Or.inl (_function_std_exhausted cfg e funcKey f w hheap)

/-- What `_function` does for every shape of callable: nothing at all with the
answer false, or one call of `register_function` whose answer it returns. -/
theorem _function_cases (cfg : BuildConfig) (e : Engine σ) (funcKey : String)
    (arg : FunctionArg υ) (w : World σ υ) :
    CloudClass._function cfg e funcKey arg w = (false, w) ∨
    ∃ fn data, cfg.SPARK_NO_CLOUD = false ∧
      (CloudClass._function cfg e funcKey arg w).1 =
        (e.register_function fn data funcKey w.engine).1 ∧
      (CloudClass._function cfg e funcKey arg w).2.user = w.user ∧
      newCalls w (CloudClass._function cfg e funcKey arg w).2 =
        [EngineCall.register_function fn data funcKey] := by
  cases arg with
  | function_pointer func =>
    by_cases hc : cfg.SPARK_NO_CLOUD = true
    · left
      simp [CloudClass._function, CloudClass._function_ptr, CLOUD_FN, hc]
    · right
      refine ⟨.call_raw_user_function, func, by simpa using hc, ?_⟩
      simp [CloudClass._function, CloudClass._function_ptr, CLOUD_FN, hc, register_function,
        newCalls]
  | std_function func =>
    rcases _function_std_cases cfg e funcKey func w with h | ⟨f, _, hc, h⟩
    · left
      simpa [CloudClass._function] using h
    · right
      refine ⟨.call_std_user_function, w.heap.length, hc, ?_⟩
      simp only [CloudClass._function, h]
      simp [newCalls]
  | member_function func object =>
    rcases _function_std_cases cfg e funcKey (some (func object)) w with h | ⟨f, _, hc, h⟩
    · left
      simpa [CloudClass._function, CloudClass._function_member] using h
    · right
      refine ⟨.call_std_user_function, w.heap.length, hc, ?_⟩
      simp only [CloudClass._function, CloudClass._function_member, h]
      simp [newCalls]

/-- C8: a call `function(name, callable)` that passes the name check, for a
pointer to a free function, a closure or a bound member function.  It returns
true exactly when it made a call of the engine's `register_function` for that
name and the engine answered true; it leaves the user state untouched, so no
callable has run; and it returns false when cloud support is compiled out or
when the engine refuses the name.  The call is really made: with cloud support
compiled out nothing happens at all; with cloud support a function pointer leads
to exactly one `register_function(call_raw_user_function, func, name)` and no
new object, a closure that is not empty and a bound member function lead, when
`new` delivers an object, to one wrapper holding the callable and exactly one
`register_function(call_std_user_function, wrapper, name)`, and in each case the
result and the engine state are the ones of that call; an empty closure or a
failed `new` leave everything as it was, with the result false. -/
theorem function_spec (cfg : BuildConfig) (e : Engine σ) (name : NameArg) (arg : FunctionArg υ)
    (w : World σ υ) (hname : CloudClass.function_static_assert cfg name = true) :
    ∃ r, CloudClass.function cfg e name arg w = some r ∧
      (r.1 = true ↔ ∃ fn data,
        newCalls w r.2 = [EngineCall.register_function fn data name.c_str] ∧
        (e.register_function fn data name.c_str w.engine).1 = true) ∧
      r.2.user = w.user ∧
      (cfg.SPARK_NO_CLOUD = true → r.1 = false) ∧
      ((∀ fn data, (e.register_function fn data name.c_str w.engine).1 = false) →
        r.1 = false) ∧
      (cfg.SPARK_NO_CLOUD = true → r = (false, w)) ∧
      (cfg.SPARK_NO_CLOUD = false →
        match arg with
        | FunctionArg.function_pointer func =>
          newCalls w r.2 =
            [EngineCall.register_function .call_raw_user_function func name.c_str] ∧
          r.1 = (e.register_function .call_raw_user_function func name.c_str w.engine).1 ∧
          r.2.engine =
            (e.register_function .call_raw_user_function func name.c_str w.engine).2 ∧
          newObjects w r.2 = []
        | FunctionArg.std_function Option.none => r = (false, w)
        | FunctionArg.std_function (some f) =>
          (w.heap.length < w.heapLimit →
            newCalls w r.2 = [EngineCall.register_function .call_std_user_function
              w.heap.length name.c_str] ∧
            r.1 = (e.register_function .call_std_user_function w.heap.length name.c_str
              w.engine).1 ∧
            r.2.engine = (e.register_function .call_std_user_function w.heap.length name.c_str
              w.engine).2 ∧
            newObjects w r.2 = [HeapObject.function_wrapper f]) ∧
          (¬ w.heap.length < w.heapLimit → r = (false, w))
        | FunctionArg.member_function func object =>
          (w.heap.length < w.heapLimit →
            newCalls w r.2 = [EngineCall.register_function .call_std_user_function
              w.heap.length name.c_str] ∧
            r.1 = (e.register_function .call_std_user_function w.heap.length name.c_str
              w.engine).1 ∧
            r.2.engine = (e.register_function .call_std_user_function w.heap.length name.c_str
              w.engine).2 ∧
            newObjects w r.2 = [HeapObject.function_wrapper (func object)]) ∧
          (¬ w.heap.length < w.heapLimit → r = (false, w))) := by
  refine ⟨CloudClass._function cfg e name.c_str arg w, ?_, ?_, ?_, ?_, ?_, ?_, ?_⟩
  · simp [CloudClass.function, hname]
  · rcases _function_cases cfg e name.c_str arg w with h | ⟨fn, data, _, h1, _, h3⟩
    · rw [h]
      simp [newCalls_self]
    · rw [h1, h3]
      constructor
      · intro ht
        exact ⟨fn, data, rfl, ht⟩
      · rintro ⟨fn2, data2, hEq, ht⟩
        simp only [List.cons.injEq, EngineCall.register_function.injEq, and_true] at hEq
        obtain ⟨h4, h5⟩ := hEq
        rw [h4, h5]
        exact ht
  · rcases _function_cases cfg e name.c_str arg w with h | ⟨fn, data, _, _, h2, _⟩
    · rw [h]
    · exact h2
  · intro hc
    rcases _function_cases cfg e name.c_str arg w with h | ⟨fn, data, hc2, _⟩
    · rw [h]
    · rw [hc] at hc2
      exact absurd hc2 (by decide)
  · intro hrefuse
    rcases _function_cases cfg e name.c_str arg w with h | ⟨fn, data, _, h1, _⟩
    · rw [h]
    · rw [h1]
      exact hrefuse fn data
  · intro hc
    cases arg with
    | function_pointer func => simp [CloudClass._function, CloudClass._function_ptr, CLOUD_FN, hc]
    | std_function func => exact _function_std_noCloud cfg e name.c_str func w hc
    | member_function func object =>
      exact _function_std_noCloud cfg e name.c_str (some (func object)) w hc
  · intro hc
    cases arg with
    | function_pointer func =>
      simp [CloudClass._function, CloudClass._function_ptr, CLOUD_FN, hc, register_function,
        newCalls, newObjects]
    | std_function func =>
      cases func with
      | none => exact _function_std_empty cfg e name.c_str w
      | some f =>
        refine ⟨?_, ?_⟩
        · intro hheap
          simp only [CloudClass._function, _function_std_wrapped cfg e name.c_str f w hc hheap]
          simp [newCalls, newObjects]
        · intro hheap
          exact _function_std_exhausted cfg e name.c_str f w hheap
    | member_function func object =>
      refine ⟨?_, ?_⟩
      · intro hheap
        simp only [CloudClass._function, CloudClass._function_member,
          _function_std_wrapped cfg e name.c_str (func object) w hc hheap]
        simp [newCalls, newObjects]
      · intro hheap
        exact _function_std_exhausted cfg e name.c_str (func object) w hheap

/-- Evaluation of C8 on the concrete engine, which accepts the name "led": a
function pointer (address 4096, on a heap without room), a closure that would
count its invocations, and a member function bound to the object at address 7.
Each registration makes its one call, returns true, and leaves the counter at 0. -/
theorem function_spec_witness :
    CloudClass.function_static_assert demoBuild (NameArg.literal "led") = true ∧
    (∃ r, CloudClass.function demoBuild demoEngine (NameArg.literal "led")
        (FunctionArg.function_pointer 4096) (demoWorld demoOnline 0) = some r ∧
      newCalls (demoWorld demoOnline 0) r.2 =
        [EngineCall.register_function cloud_function_t.call_raw_user_function 4096 "led"] ∧
      r.1 = true ∧ r.2.user = 0) ∧
    (∃ r, CloudClass.function demoBuild demoEngine (NameArg.literal "led")
        (FunctionArg.std_function (some demoCallable)) (demoWorld demoOnline 4) = some r ∧
      newCalls (demoWorld demoOnline 4) r.2 =
        [EngineCall.register_function cloud_function_t.call_std_user_function 0 "led"] ∧
      newObjects (demoWorld demoOnline 4) r.2 = [HeapObject.function_wrapper demoCallable] ∧
      r.1 = true ∧ r.2.user = 0) ∧
    (∃ r, CloudClass.function demoBuild demoEngine (NameArg.literal "led")
        (FunctionArg.member_function (fun _ => demoCallable) 7) (demoWorld demoOnline 4)
          = some r ∧
      newCalls (demoWorld demoOnline 4) r.2 =
        [EngineCall.register_function cloud_function_t.call_std_user_function 0 "led"] ∧
      newObjects (demoWorld demoOnline 4) r.2 = [HeapObject.function_wrapper demoCallable] ∧
      r.1 = true ∧ r.2.user = 0) ∧
    (∃ r, CloudClass.function demoBuildNoCloud demoEngine (NameArg.literal "led")
        (FunctionArg.function_pointer 4096) (demoWorld demoOnline 0) = some r ∧
      r = (false, demoWorld demoOnline 0)) := by
  refine ⟨by decide, ?_, ?_, ?_, ?_⟩
  · obtain ⟨r, h1, _, h3, _, _, _, h7⟩ := function_spec demoBuild demoEngine
      (NameArg.literal "led") (FunctionArg.function_pointer 4096) (demoWorld demoOnline 0)
      (by decide)
    have h := h7 (by decide)
    exact ⟨r, h1, h.1, h.2.1.trans (by decide), h3⟩
  · obtain ⟨r, h1, _, h3, _, _, _, h7⟩ := function_spec demoBuild demoEngine
      (NameArg.literal "led") (FunctionArg.std_function (some demoCallable))
      (demoWorld demoOnline 4) (by decide)
    have h := (h7 (by decide)).1 (by decide)
    exact ⟨r, h1, h.1, h.2.2.2, h.2.1.trans (by decide), h3⟩
  · obtain ⟨r, h1, _, h3, _, _, _, h7⟩ := function_spec demoBuild demoEngine
      (NameArg.literal "led") (FunctionArg.member_function (fun _ => demoCallable) 7)
      (demoWorld demoOnline 4) (by decide)
    have h := (h7 (by decide)).1 (by decide)
    exact ⟨r, h1, h.1, h.2.2.2, h.2.1.trans (by decide), h3⟩
  · obtain ⟨r, h1, _, _, _, _, h6, _⟩ := function_spec demoBuildNoCloud demoEngine
      (NameArg.literal "led") (FunctionArg.function_pointer 4096) (demoWorld demoOnline 0)
      (by decide)
    exact ⟨r, h1, h6 (by decide)⟩

/-- The wrapper handed to the engine is the context from which the trampoline
recovers the callable: invoked on it, the trampoline runs the registered callable. -/
theorem call_std_user_function_registered (cfg : BuildConfig) (e : Engine σ) (funcKey : String)
    (f : user_std_function_int_str_t υ) (w : World σ υ) (hc : cfg.SPARK_NO_CLOUD = false)
    (hheap : w.heap.length < w.heapLimit) (param : String) :
    (CloudClass.call_std_user_function w.heap.length param
        (CloudClass._function_std cfg e funcKey (some f) w).2).1 = (f param w.user).1 ∧
    (CloudClass.call_std_user_function w.heap.length param
        (CloudClass._function_std cfg e funcKey (some f) w).2).2.user = (f param w.user).2 := by
  rw [_function_std_wrapped cfg e funcKey f w hc hheap]
  simp [CloudClass.call_std_user_function]

/-- C10, as the code has it.  For the closure forms of function registration
(`_function` with a `std::function`) and of subscription (`subscribe_wiring`):
with cloud support compiled out, or with an empty callable, or when `new`
delivers no object, the operation returns false and leaves the world as it was
(no engine call, no wrapper); with cloud support, a callable and room on the
heap, it creates one wrapper holding the callable, calls the engine once with
the address of that wrapper as context, and returns the engine's answer. -/
theorem closure_registration_spec (cfg : BuildConfig) (e : Engine σ) (funcKey eventName : String)
    (scope : Spark_Subscription_Scope_TypeDef) (deviceID : Option String) (w : World σ υ) :
    ((∀ func, cfg.SPARK_NO_CLOUD = true →
        CloudClass._function_std cfg e funcKey func w = (false, w)) ∧
      CloudClass._function_std cfg e funcKey Option.none w = (false, w) ∧
      (∀ f, ¬ w.heap.length < w.heapLimit →
        CloudClass._function_std cfg e funcKey (some f) w = (false, w)) ∧
      (∀ f, cfg.SPARK_NO_CLOUD = false → w.heap.length < w.heapLimit →
        newObjects w (CloudClass._function_std cfg e funcKey (some f) w).2
          = [HeapObject.function_wrapper f] ∧
        (CloudClass._function_std cfg e funcKey (some f) w).2.heap[w.heap.length]?
          = some (HeapObject.function_wrapper f) ∧
        newCalls w (CloudClass._function_std cfg e funcKey (some f) w).2 =
          [EngineCall.register_function .call_std_user_function w.heap.length funcKey] ∧
        (CloudClass._function_std cfg e funcKey (some f) w).1 =
          (e.register_function .call_std_user_function w.heap.length funcKey w.engine).1)) ∧
    ((∀ handler, cfg.SPARK_NO_CLOUD = true →
        CloudClass.subscribe_wiring cfg e eventName handler scope deviceID w = (false, w)) ∧
      CloudClass.subscribe_wiring cfg e eventName Option.none scope deviceID w = (false, w) ∧
      (∀ h, ¬ w.heap.length < w.heapLimit →
        CloudClass.subscribe_wiring cfg e eventName (some h) scope deviceID w = (false, w)) ∧
      (∀ h, cfg.SPARK_NO_CLOUD = false → w.heap.length < w.heapLimit →
        newObjects w (CloudClass.subscribe_wiring cfg e eventName (some h) scope deviceID w).2
          = [HeapObject.event_handler_wrapper h] ∧
        (CloudClass.subscribe_wiring cfg e eventName (some h) scope deviceID w).2.heap[
          w.heap.length]? = some (HeapObject.event_handler_wrapper h) ∧
        newCalls w (CloudClass.subscribe_wiring cfg e eventName (some h) scope deviceID w).2 =
          [EngineCall.spark_subscribe eventName .call_wiring_event_handler (some w.heap.length)
            scope deviceID] ∧
        (CloudClass.subscribe_wiring cfg e eventName (some h) scope deviceID w).1 =
          (e.spark_subscribe eventName .call_wiring_event_handler (some w.heap.length) scope
            deviceID w.engine).1)) := by
  refine ⟨⟨?_, ?_, ?_, ?_⟩, ⟨?_, ?_, ?_, ?_⟩⟩
  · exact fun func hc => _function_std_noCloud cfg e funcKey func w hc
  · exact _function_std_empty cfg e funcKey w
  · exact fun f hheap => _function_std_exhausted cfg e funcKey f w hheap
  · intro f hc hheap
    rw [_function_std_wrapped cfg e funcKey f w hc hheap]
    simp [newObjects, newCalls]
  · exact fun handler hc => subscribe_wiring_noCloud cfg e eventName handler scope deviceID w hc
  · exact subscribe_wiring_empty cfg e eventName scope deviceID w
  · exact fun h hheap => subscribe_wiring_exhausted cfg e eventName h scope deviceID w hheap
  · intro h hc hheap
    rw [subscribe_wiring_wrapped cfg e eventName h scope deviceID w hc hheap]
    simp [newObjects, newCalls]

/-- Evaluation of C10 on the concrete engine with cloud support and room for four
objects: one wrapper, one engine call with context 0, the engine's answer. -/
theorem closure_registration_spec_witness :
    (demoBuild.SPARK_NO_CLOUD = false ∧
      (demoWorld demoOnline 4).heap.length < (demoWorld demoOnline 4).heapLimit) ∧
    (newObjects (demoWorld demoOnline 4)
        (CloudClass._function_std demoBuild demoEngine "led" (some demoCallable)
          (demoWorld demoOnline 4)).2 = [HeapObject.function_wrapper demoCallable] ∧
      (CloudClass._function_std demoBuild demoEngine "led" (some demoCallable)
        (demoWorld demoOnline 4)).2.heap[(demoWorld demoOnline 4).heap.length]?
          = some (HeapObject.function_wrapper demoCallable) ∧
      newCalls (demoWorld demoOnline 4)
        (CloudClass._function_std demoBuild demoEngine "led" (some demoCallable)
          (demoWorld demoOnline 4)).2 =
        [EngineCall.register_function cloud_function_t.call_std_user_function
          (demoWorld demoOnline 4).heap.length "led"] ∧
      (CloudClass._function_std demoBuild demoEngine "led" (some demoCallable)
        (demoWorld demoOnline 4)).1 =
        (demoEngine.register_function cloud_function_t.call_std_user_function
          (demoWorld demoOnline 4).heap.length "led" (demoWorld demoOnline 4).engine).1) ∧
    (∀ func, demoBuildNoCloud.SPARK_NO_CLOUD = true →
      CloudClass._function_std demoBuildNoCloud demoEngine "led" func (demoWorld demoOnline 4)
        = (false, demoWorld demoOnline 4)) :=
  ⟨⟨by decide, by decide⟩,
    (closure_registration_spec demoBuild demoEngine "led" "motion"
      Spark_Subscription_Scope_TypeDef.MY_DEVICES Option.none (demoWorld demoOnline 4)).1.2.2.2
        demoCallable (by decide) (by decide),
    (closure_registration_spec demoBuildNoCloud demoEngine "led" "motion"
      Spark_Subscription_Scope_TypeDef.MY_DEVICES Option.none (demoWorld demoOnline 4)).1.1⟩

/-- C10 as stated fails: a callable that is not empty, and yet no wrapper and no
engine call, both for `_function` and for `subscribe_wiring`, in a build without
cloud support and, with cloud support, on a heap that has no room left. -/
theorem closure_registration_counterexample :
    ((newObjects (demoWorld demoOnline 4)
        (CloudClass._function_std demoBuildNoCloud demoEngine "led" (some demoCallable)
          (demoWorld demoOnline 4)).2).length = 0 ∧
      newCalls (demoWorld demoOnline 4)
        (CloudClass._function_std demoBuildNoCloud demoEngine "led" (some demoCallable)
          (demoWorld demoOnline 4)).2 = [] ∧
      (newObjects (demoWorld demoOnline 4)
        (CloudClass.subscribe_wiring demoBuildNoCloud demoEngine "motion" (some demoHandler)
          Spark_Subscription_Scope_TypeDef.MY_DEVICES Option.none
          (demoWorld demoOnline 4)).2).length = 0 ∧
      newCalls (demoWorld demoOnline 4)
        (CloudClass.subscribe_wiring demoBuildNoCloud demoEngine "motion" (some demoHandler)
          Spark_Subscription_Scope_TypeDef.MY_DEVICES Option.none
          (demoWorld demoOnline 4)).2 = []) ∧
    ((newObjects (demoWorld demoOnline 0)
        (CloudClass._function_std demoBuild demoEngine "led" (some demoCallable)
          (demoWorld demoOnline 0)).2).length = 0 ∧
      newCalls (demoWorld demoOnline 0)
        (CloudClass._function_std demoBuild demoEngine "led" (some demoCallable)
          (demoWorld demoOnline 0)).2 = [] ∧
      (CloudClass._function_std demoBuild demoEngine "led" (some demoCallable)
          (demoWorld demoOnline 0)).1 = false ∧
      (demoEngine.register_function cloud_function_t.call_std_user_function 0 "led"
          (demoWorld demoOnline 0).engine).1 = true ∧
      (newObjects (demoWorld demoOnline 0)
        (CloudClass.subscribe_wiring demoBuild demoEngine "motion" (some demoHandler)
          Spark_Subscription_Scope_TypeDef.MY_DEVICES Option.none
          (demoWorld demoOnline 0)).2).length = 0 ∧
      newCalls (demoWorld demoOnline 0)
        (CloudClass.subscribe_wiring demoBuild demoEngine "motion" (some demoHandler)
          Spark_Subscription_Scope_TypeDef.MY_DEVICES Option.none
          (demoWorld demoOnline 0)).2 = []) := by
  decide

end Functions

section Names

/-- C9, as the code has it.  A literal name of `n` characters passes the check of
`variable` exactly when `n` is at most `USER_VAR_KEY_LENGTH`; it passes the check
of `function` exactly when `n` is at most `USER_FUNC_KEY_LENGTH` on every
platform but `PLATFORM_ID` 3, where `function` has no check and accepts every
name; a name handed over as a character pointer or as a `String` object passes
both checks, whatever its length. -/
theorem name_check_spec (cfg : BuildConfig) :
    (∀ chars : String, CloudClass.variable_static_assert cfg (NameArg.literal chars) = true ↔
      charCount chars ≤ cfg.USER_VAR_KEY_LENGTH) ∧
    (cfg.PLATFORM_ID ≠ 3 →
      ∀ chars : String, CloudClass.function_static_assert cfg (NameArg.literal chars) = true ↔
        charCount chars ≤ cfg.USER_FUNC_KEY_LENGTH) ∧
    (cfg.PLATFORM_ID = 3 → ∀ name : NameArg, CloudClass.function_static_assert cfg name = true) ∧
    (∀ chars : String,
      CloudClass.variable_static_assert cfg (NameArg.char_pointer chars) = true ∧
      CloudClass.variable_static_assert cfg (NameArg.String_object chars) = true ∧
      CloudClass.function_static_assert cfg (NameArg.char_pointer chars) = true ∧
      CloudClass.function_static_assert cfg (NameArg.String_object chars) = true) := by
  refine ⟨?_, ?_, ?_, ?_⟩
  · intro chars
    simp [CloudClass.variable_static_assert, CloudClass.IsStringLiteral, NameArg.is_array,
      NameArg.element_is_char, NameArg.sizeof]
  · intro hp chars
    simp [CloudClass.function_static_assert, CloudClass.IsStringLiteral, NameArg.is_array,
      NameArg.element_is_char, NameArg.sizeof, hp]
  · intro hp name
    simp [CloudClass.function_static_assert, hp]
  · intro chars
    refine ⟨?_, ?_, ?_, ?_⟩ <;>
      simp [CloudClass.variable_static_assert, CloudClass.function_static_assert,
        CloudClass.IsStringLiteral, NameArg.is_array]

/-- Evaluation of C9 on concrete builds: with a limit of 12 the literal "temperature"
(11 characters) passes the check of `function`, "temperature_c" (13) does not;
under `PLATFORM_ID` 3 every name passes. -/
theorem name_check_spec_witness :
    (demoBuild.PLATFORM_ID ≠ 3 ∧
      CloudClass.function_static_assert demoBuild (NameArg.literal "temperature") = true ∧
      CloudClass.function_static_assert demoBuild (NameArg.literal "temperature_c") = false ∧
      (CloudClass.function_static_assert demoBuild (NameArg.literal "temperature_c") = true ↔
        charCount "temperature_c" ≤ demoBuild.USER_FUNC_KEY_LENGTH)) ∧
    (demoBuildGcc.PLATFORM_ID = 3 ∧
      ∀ name : NameArg, CloudClass.function_static_assert demoBuildGcc name = true) :=
  ⟨⟨by decide, by decide, by decide,
      (name_check_spec demoBuild).2.1 (by decide) "temperature_c"⟩,
    ⟨by decide, (name_check_spec demoBuildGcc).2.2.1 (by decide)⟩⟩

/-- C9 as stated fails twice.  Under `PLATFORM_ID` 3 the literal "temperature_c", 13
characters against a limit of 12, passes the check of `function`.  And the name
"temp", built at run time in an array `char buf[64]`, is rejected by the checks
of `variable` and of `function`, although it was not a literal and is short. -/
theorem name_check_counterexample :
    (CloudClass.function_static_assert demoBuildGcc (NameArg.literal "temperature_c") = true ∧
      ¬ charCount "temperature_c" ≤ demoBuildGcc.USER_FUNC_KEY_LENGTH) ∧
    ((NameArg.char_array 64 "temp").builtAtRuntime = true ∧
      CloudClass.variable_static_assert demoBuild (NameArg.char_array 64 "temp") = false ∧
      CloudClass.function_static_assert demoBuild (NameArg.char_array 64 "temp") = false ∧
      charCount (NameArg.char_array 64 "temp").c_str ≤ demoBuild.USER_VAR_KEY_LENGTH) := by
  decide

end Names

end SparkWiringCloud
